import Mathlib

set_option maxRecDepth 100000
set_option maxHeartbeats 1000000

/- Verification of the trim-normalization engine of scripts/trim_cleaning.py.

   Strings are shallowly embedded as lists of characters (`LC`), and pandas
   DataFrames as lists of row records.  The regular-expression passes of the
   source are embedded as explicit scanners with the matching discipline of
   Python re.sub on an alternation of escaped literals: leftmost match
   position, first alternative in pattern order, scanning resumes after the
   match.  Recursive scanners take a fuel argument (the length of the string,
   which bounds the number of steps) so that every definition is structurally
   recursive and kernel-reducible. -/

abbrev LC := List Char

/-- the sentinel string unknown used for invalid or missing trims -/
def unknownLC : LC := "unknown".toList

/-- the columns that extract_info_from_trim may overwrite -/
inductive Col where
  | bodytype | fueltype | drivetrain | transmission
deriving DecidableEq

/-- noise markers: clean_trim truncates before the first one (in this list order) that occurs -/
def truncationMarkers : List LC := [
  "|".toList,
  ",".toList,
  " - ".toList,
  " w/".toList,
  "with".toList,
  "avec".toList,
  "~".toList,
  "(".toList]

/-- French-to-English phrase substitutions of clean_trim, in dict declaration order -/
def trimTranslationMapping : List (LC × LC) := [
  ("e anniversaire".toList, "th anniversary".toList),
  ("vision climat".toList, "climate vision".toList),
  ("gr. remorquage".toList, "towing package".toList),
  ("gr.remorquage".toList, "towing package".toList),
  ("disponibilité limited".toList, "limited".toList),
  ("groupe remorquage".toList, "towing package".toList),
  ("hybride rechargeable".toList, "plug-in hybrid".toList),
  ("hybride branchable".toList, "plug-in hybrid".toList),
  ("plug in".toList, "plug-in".toList),
  ("technologie".toList, "technology".toList),
  ("privilège".toList, "privilege".toList),
  ("tourisme".toList, "touring".toList),
  ("preffered".toList, "preferred".toList),
  ("privilégié".toList, "preferred".toList),
  ("executif".toList, "executive".toList),
  ("électriques".toList, "electric".toList),
  ("électrique".toList, "electric".toList),
  ("electriques".toList, "electric".toList),
  ("electrique".toList, "electric".toList),
  ("automique".toList, "atomic".toList),
  ("autoplot".toList, "autopilot".toList),
  ("autonomie".toList, "autopilot".toList),
  ("portes".toList, "door".toList),
  ("confort".toList, "comfort".toList),
  ("édition".toList, "edition".toList),
  ("caligraphy".toList, "calligraphy".toList),
  ("s line".toList, "s-line".toList),
  ("fsport".toList, "f-sport".toList),
  ("f sport".toList, "f-sport".toList),
  ("luxe".toList, "luxury".toList),
  ("hybride".toList, "hybrid".toList),
  ("hayon".toList, "hatchback".toList),
  ("berline".toList, "sedan".toList),
  ("coupé".toList, "coupe".toList),
  ("cabriolet".toList, "convertible".toList),
  ("décapotable".toList, "convertible".toList),
  ("limitée".toList, "limited".toList),
  ("limité".toList, "limited".toList),
  ("sélect".toList, "select".toList),
  ("allongé".toList, "crew cab 143.5".toList),
  ("prem plus".toList, "premium plus".toList),
  ("platine".toList, "platinum".toList)]

/-- complex phrases deleted by sequential plain substring replacement in clean_trim -/
def complexWordsToRemove : List LC := [
  "( 2 ans inclus)".toList,
  "$500 finance incentive".toList,
  "0.99%".toList,
  "4.49%".toList,
  "3.99%".toList,
  "2.99%".toList,
  "3.39%".toList,
  "4.49%".toList,
  "5.19%".toList,
  "1.99%".toList,
  "5.53%".toList,
  "gr.electric".toList,
  "magstoit.ouvrantsieges.chauff".toList,
  "magssieges.chauffbluetooth".toList,
  "navicuirtoit.ouvrant".toList,
  "gr.electrique".toList,
  "magscam.reculapple.".toList,
  "b. h".toList,
  "taux à partir de".toList,
  "à partir de".toList,
  "18po-mags".toList,
  "o.a.".toList,
  "like-new".toList,
  "5.99".toList,
  "drivr.asst".toList,
  "gr.electrique".toList,
  "magscam.reculapple.".toList,
  "gr-electric".toList,
  "4-dr".toList,
  "5-dr".toList,
  "b. h".toList,
  "h- r".toList,
  "1 an".toList,
  "o.a.c.".toList,
  "o.a.".toList,
  "b h".toList,
  "®".toList,
  "à".toList,
  "b&".toList]

/-- simple stopwords removed by one word-boundary regex pass in clean_trim (per-call extra words are appended) -/
def simpleWordsToRemove : List LC := [
  "ask us how we can find you a similar vehicle".toList,
  "premjamais accidentégarantie".toList,
  "10ans200000km".toList,
  "7 ans 160km".toList,
  "10ans 200000km".toList,
  "160 000km".toList,
  "compatible apple carplay et android auto".toList,
  "drives great".toList,
  "runs great".toList,
  "sport utility vehicle".toList,
  "sport utility".toList,
  "great deal".toList,
  "buy now".toList,
  "hurry before it sells out".toList,
  "buy now before it sells out".toList,
  "advanced driving assistant".toList,
  "groupe electrique complet".toList,
  "en attente dftapprobation".toList,
  "as isyou certifyyou save".toList,
  "all credits".toList,
  "financement disponible".toList,
  "gr-électrique -ouvrant".toList,
  "we finance".toList,
  "we approve".toList,
  "all credit".toList,
  "heated steering wheel".toList,
  "5 years 160,000km wrt".toList,
  "disponibilité limited".toList,
  "compatible et android".toList,
  "disponibilité limitée".toList,
  "disponibilité limitéd".toList,
  "full service history".toList,
  "seul".toList,
  "un".toList,
  "gr-électrique".toList,
  "sièges volant chauff".toList,
  "demarreur a distance".toList,
  "come and test drive".toList,
  "excellent condition".toList,
  "convenience package".toList,
  "ambient light drive".toList,
  "trades".toList,
  "welcome".toList,
  "1 seul propriétaire".toList,
  "spring sale event on now".toList,
  "spring sale".toList,
  "traction intégrale".toList,
  "sulev south africa".toList,
  "garantie prolongée".toList,
  "vitres électriques".toList,
  "aide à la conduite".toList,
  "entièrement équipé".toList,
  "warranty included".toList,
  "5 years 160,000km".toList,
  "wireless charging".toList,
  "jantes en alliage".toList,
  "sièges chauffants".toList,
  "sieges chauffants".toList,
  "seul proprietaire".toList,
  "groupe électrique".toList,
  "camion de travail".toList,
  "groupe electrique".toList,
  "panoramic sunroof".toList,
  "heads up display".toList,
  "air conditioning".toList,
  "sport appearance".toList,
  "sieges chauffant".toList,
  "jamais accidenté".toList,
  "jamais accidente".toList,
  "volant chauffant".toList,
  "sièges chauffant".toList,
  "4 roues motrices".toList,
  "7-passenger".toList,
  "7-passagers".toList,
  "app-connect".toList,
  "8-pass".toList,
  "7-pass".toList,
  "4-door".toList,
  "5-door".toList,
  "s-tronic".toList,
  "8 pneus".toList,
  "35th annversary edton".toList,
  "collision alert".toList,
  "collision detection".toList,
  "6-speed".toList,
  "5 speed".toList,
  "6 speed".toList,
  "like new".toList,
  "from oa".toList,
  "l o".toList,
  "less than 40".toList,
  "sliding doors".toList,
  "4 door".toList,
  "3 door".toList,
  "2 door".toList,
  "head-up display".toList,
  "head up display".toList,
  "all wheel drive".toList,
  "available as is".toList,
  "all-wheel drive".toList,
  "convenience pkg".toList,
  "awdpneus inclus".toList,
  "siege chauffant".toList,
  "bas kilométrage".toList,
  "elect cam recul".toList,
  "caméra de recul".toList,
  "camera de recul".toList,
  "bas kilometrage".toList,
  "bas kilo".toList,
  "ventilés".toList,
  "groupe electric".toList,
  "cruise control".toList,
  "remote starter".toList,
  "headup display".toList,
  "apple car play".toList,
  "steering wheel".toList,
  "w-wing spoiler".toList,
  "low kilometers".toList,
  "low kilometres".toList,
  "1 propriétaire".toList,
  "1 proprietaire".toList,
  "sxt stow nftgo".toList,
  "whonda sensing".toList,
  "banc chauffant".toList,
  "ens commodités".toList,
  "taux partir de".toList,
  "panoramic roof".toList,
  "incoming unit".toList,
  "adv key".toList,
  "all service records".toList,
  "full service records".toList,
  "service records".toList,
  "services records".toList,
  "bien entretenu".toList,
  "systeme de".toList,
  "driver assist".toList,
  "5 door".toList,
  "18 wheels".toList,
  "21 wheels".toList,
  "7 seater".toList,
  "car play".toList,
  "groupe comfort".toList,
  "accident free".toList,
  "backup camera".toList,
  "harman kardon".toList,
  "as-is special".toList,
  "keyless entry".toList,
  "air condition".toList,
  "apple carplay".toList,
  "compatible et".toList,
  "north america".toList,
  "ambient light".toList,
  "adaptive crse".toList,
  "groupe valeur".toList,
  "160,000km wrt".toList,
  "no luxury tax".toList,
  "ens commodité".toList,
  "ens commodite".toList,
  "gr electrique".toList,
  "écran tactile".toList,
  "gr électrique".toList,
  "---vitre elec".toList,
  "w-li battery".toList,
  "clean carfax".toList,
  "heated seats".toList,
  "fully loaded".toList,
  "no accidents".toList,
  "single owner".toList,
  "remote start".toList,
  "7 passengers".toList,
  "7-seater".toList,
  "alloy wheels".toList,
  "sale pending".toList,
  "blowout sale".toList,
  "south africa".toList,
  "used vehicle".toList,
  "wing spoiler".toList,
  "sound system".toList,
  "sieges promo".toList,
  "to your door".toList,
  "toit ouvrant".toList,
  "groupe élect".toList,
  "volant chauf".toList,
  "série de bmw".toList,
  "app connect".toList,
  "low mileage".toList,
  "new arrival".toList,
  "no accident".toList,
  "cloth seats".toList,
  "8 passenger".toList,
  "8 passagers".toList,
  "7 passenger".toList,
  "7 passagers".toList,
  "7 passager".toList,
  "lane assist".toList,
  "lane departure".toList,
  "ltd avail".toList,
  "fresh trade".toList,
  "coming soon".toList,
  "park assist".toList,
  "série de bm".toList,
  "easy trades".toList,
  "6 passagers".toList,
  "sxt stowngo".toList,
  "valeur plus".toList,
  "angle morts".toList,
  "gr electric".toList,
  "air ventilé".toList,
  "bas millage".toList,
  "blue tooth".toList,
  "backup cam".toList,
  "push start".toList,
  "test drive".toList,
  "-ltd avail".toList,
  "blind spot".toList,
  "&#174;".toList,
  "200 000 km".toList,
  "comme neuf".toList,
  "ans inclus".toList,
  "car fax".toList,
  "7 ans".toList,
  "financement a".toList,
  "top of line".toList,
  "cold weather".toList,
  "vitre electric".toList,
  "7 sts".toList,
  "7 ans160km".toList,
  "vitre elec".toList,
  "off lease".toList,
  "one owner".toList,
  "w adv key".toList,
  "ltd avail".toList,
  "200 000km".toList,
  "1 proprio".toList,
  "new tires".toList,
  "new brakes".toList,
  "all around".toList,
  "as traded".toList,
  "in hearst".toList,
  "low kmfts".toList,
  "rec siège".toList,
  "rec siege".toList,
  "-18ftft".toList,
  "60 mois".toList,
  "rég adapt".toList,
  "voiture à".toList,
  "cam recul".toList,
  "18 pouces".toList,
  "19 pouces".toList,
  "20 pouces".toList,
  "2 portes".toList,
  "12m-20".toList,
  "3 portes".toList,
  "4 portes".toList,
  "5 portes".toList,
  "6 pass".toList,
  "8 pass".toList,
  "7 pass".toList,
  "low km".toList,
  "low kms".toList,
  "3 year".toList,
  "w leds".toList,
  "1 owne".toList,
  "just in".toList,
  "w heat".toList,
  "bas km".toList,
  "10 ans".toList,
  "4 cyl".toList,
  "as is".toList,
  "4 rm".toList,
  "a c".toList,
  "24 months".toList,
  "24 mths".toList,
  "12 months".toList,
  "12 mths".toList,
  "36 months".toList,
  "must see".toList,
  "electric".toList,
  "elect".toList,
  "elec".toList,
  "model".toList,
  "convertible".toList,
  "coupe".toList,
  "1".toList,
  "carplayandroidauto".toList,
  "bluetoothcamera".toList,
  "carplayandroid".toList,
  "androidauto".toList,
  "certification".toList,
  "entertainment".toList,
  "climatisation".toList,
  "personnalisée".toList,
  "transmission".toList,
  "automatique".toList,
  "certifiable".toList,
  "grade".toList,
  "lanewatch".toList,
  "launch".toList,
  "économique".toList,
  "economique".toList,
  "compatible".toList,
  "suspension".toList,
  "you".toList,
  "certify".toList,
  "save".toList,
  "version".toList,
  "led".toList,
  "voiture".toList,
  "8-passenger".toList,
  "touchscreen".toList,
  "convenience".toList,
  "climatiseur".toList,
  "financement".toList,
  "sieges".toList,
  "promo".toList,
  "siéges".toList,
  "bancs".toList,
  "banc".toList,
  "toyota".toList,
  "panoramique".toList,
  "7passagers".toList,
  "commodités".toList,
  "régulateur".toList,
  "navigation".toList,
  "commodites".toList,
  "pneus".toList,
  "inclus".toList,
  "proprietaire".toList,
  "propriétaire".toList,
  "panocaméra".toList,
  "hatchback".toList,
  "bluetooth".toList,
  "available".toList,
  "automatic".toList,
  "blindspot".toList,
  "tiptronic".toList,
  "démarreur".toList,
  "excellent".toList,
  "condition".toList,
  "burmester".toList,
  "familiale".toList,
  "delivered".toList,
  "interieur".toList,
  "adaptatif".toList,
  "intégrale".toList,
  "commodité".toList,
  "commodite".toList,
  "climatise".toList,
  "certified".toList,
  "demarreur".toList,
  "panoramic".toList,
  "manuelle".toList,
  "bluetoot".toList,
  "warranty".toList,
  "incoming".toList,
  "interior".toList,
  "adaptive".toList,
  "pkglexus".toList,
  "extended".toList,
  "wireless".toList,
  "ensemble".toList,
  "vdpurlen".toList,
  "ventilated".toList,
  "noire".toList,
  "reduced".toList,
  "accident".toList,
  "approval".toList,
  "delivery".toList,
  "arrivage".toList,
  "rapporte".toList,
  "dfthiver".toList,
  "distance".toList,
  "steering".toList,
  "garantie".toList,
  "certifie".toList,
  "certifié".toList,
  "inspecté".toList,
  "amélioré".toList,
  "panoroof".toList,
  "moonroof".toList,
  "2portes".toList,
  "berline".toList,
  "upgrade".toList,
  "sunroof".toList,
  "1-owner".toList,
  "massage".toList,
  "leather".toList,
  "android".toList,
  "edition".toList,
  "reserve".toList,
  "keyless".toList,
  "carplay".toList,
  "spoiler".toList,
  "special".toList,
  "arrived".toList,
  "climatisé".toList,
  "arrival".toList,
  "financing".toList,
  "finance".toList,
  "navigat".toList,
  "vitesse".toList,
  "located".toList,
  "pending".toList,
  "spécial".toList,
  "complet".toList,
  "ouvrant".toList,
  "réserve".toList,
  "reverse".toList,
  "ventilé".toList,
  "alertes".toList,
  "alerte".toList,
  "alert".toList,
  "diesel".toList,
  "carfax".toList,
  "loaded".toList,
  "alloys".toList,
  "cruise".toList,
  "globale".toList,
  "ready".toList,
  "brake".toList,
  "rotors".toList,
  "prem".toList,
  "seat".toList,
  "winter".toList,
  "tires".toList,
  "drivr".toList,
  "bluethoot".toList,
  "brand".toList,
  "lift".toList,
  "wheel".toList,
  "tire".toList,
  "regul".toList,
  "white".toList,
  "360cam".toList,
  "safety".toList,
  "backup".toList,
  "remote".toList,
  "recent".toList,
  "modèle".toList,
  "credit".toList,
  "chauff".toList,
  "jamais".toList,
  "heated".toList,
  "heat".toList,
  "rec".toList,
  "angles".toList,
  "volant".toList,
  "landed".toList,
  "minuit".toList,
  "manual".toList,
  "recule".toList,
  "manuel".toList,
  "caméra".toList,
  "camera".toList,
  "vitres".toList,
  "sièges".toList,
  "siège".toList,
  "sedan".toList,
  "hayon".toList,
  "cloth".toList,
  "hatch".toList,
  "6pass".toList,
  "7pass".toList,
  "as-is".toList,
  "local".toList,
  "400hp".toList,
  "567hp".toList,
  "650hp".toList,
  "237hp".toList,
  "audio".toList,
  "comes".toList,
  "from".toList,
  "trade".toList,
  "sound".toList,
  "adapt".toList,
  "apple".toList,
  "power".toList,
  "clean".toList,
  "owner".toList,
  "aucun".toList,
  "owned".toList,
  "hurry".toList,
  "seats".toList,
  "chauf".toList,
  "group".toList,
  "hiver".toList,
  "other".toList,
  "elect".toList,
  "recul".toList,
  "vendu".toList,
  "siege".toList,
  "écran".toList,
  "camer".toList,
  "boîte".toList,
  "6spd".toList,
  "auto".toList,
  "bose".toList,
  "roof".toList,
  "500km".toList,
  "500k".toList,
  "with".toList,
  "mint".toList,
  "rare".toList,
  "4cyl".toList,
  "very".toList,
  "wing".toList,
  "crse".toList,
  "rear".toList,
  "just".toList,
  "sold".toList,
  "only".toList,
  "mois".toList,
  "avec".toList,
  "deal".toList,
  "sale".toList,
  "tres".toList,
  "deux".toList,
  "leds".toList,
  "pan".toList,
  "1ère".toList,
  "jbl".toList,
  "this".toList,
  "new".toList,
  "front".toList,
  "brakes".toList,
  "lexus".toList,
  "cooled".toList,
  "18po".toList,
  "10ans".toList,
  "7ans".toList,
  "chau".toList,
  "taux".toList,
  "fixe".toList,
  "dispo".toList,
  "easy".toList,
  "clim".toList,
  "2016".toList,
  "2018".toList,
  "2013".toList,
  "2017".toList,
  "2012".toList,
  "2019".toList,
  "2020".toList,
  "2022".toList,
  "2021".toList,
  "2014".toList,
  "2015".toList,
  "2023".toList,
  "2024".toList,
  "and".toList,
  "2011".toList,
  "2010".toList,
  "vent".toList,
  "navi".toList,
  "cuir".toList,
  "mags".toList,
  "toit".toList,
  "sortie".toList,
  "voie".toList,
  "pano".toList,
  "one".toList,
  "awd".toList,
  "4wd".toList,
  "4x4".toList,
  "rwd".toList,
  "fwd".toList,
  "2wd".toList,
  "2rm".toList,
  "4rm".toList,
  "4dr".toList,
  "2dr".toList,
  "3dr".toList,
  "5dr".toList,
  "8sp".toList,
  "7sp".toList,
  "sdn".toList,
  "cpe".toList,
  "suv".toList,
  "usb".toList,
  "aux".toList,
  "cvt".toList,
  "hud".toList,
  "pkg".toList,
  "air".toList,
  "6sp".toList,
  "pre".toList,
  "amp".toList,
  "oac".toList,
  "6mt".toList,
  "mag".toList,
  "360".toList,
  "at4".toList,
  "aut".toList,
  "man".toList,
  "dsg".toList,
  "nav".toList,
  "gps".toList,
  "dvd".toList,
  "cam".toList,
  "cpo".toList,
  "wow".toList,
  "woww".toList,
  "htd".toList,
  "4d".toList,
  "hb".toList,
  "oa".toList,
  "ac".toList,
  "ca".toList,
  "ba".toList,
  "mt".toList,
  "ti".toList,
  "ta".toList,
  "bm".toList,
  "at".toList,
  "gr".toList,
  "w-".toList,
  "w".toList]

/-- whole-string invalid tokens of validate_trim (per-call extras are appended) -/
def invalidTrimsList : List LC := [
  "nan".toList,
  "-".toList,
  "&".toList,
  "|".toList,
  ".".toList,
  "low".toList,
  "no".toList,
  "w".toList,
  "*".toList,
  "".toList,
  "#".toList,
  "%".toList,
  "(".toList,
  "sedan".toList,
  "cpe".toList,
  "premium package".toList,
  "manual".toList,
  "wgn".toList,
  "360".toList,
  "air".toList,
  "&".toList,
  "bm".toList,
  "bt".toList,
  "mt".toList,
  "i".toList,
  "premium essential".toList,
  "prem pkg".toList,
  "1 owner".toList,
  "one owner".toList,
  "1".toList,
  "2".toList,
  "3".toList,
  "4".toList,
  "5".toList,
  "h".toList,
  "accident free".toList,
  "headup display".toList,
  "premium".toList,
  "clean".toList,
  "system".toList,
  "lo".toList,
  "-free".toList,
  "et".toList,
  "en".toList,
  "doors".toList,
  "car".toList,
  "pre".toList,
  "vehicle".toList,
  "sun".toList,
  "range".toList,
  "bluetooth".toList,
  "sky view roof".toList,
  "leather".toList,
  "loaded".toList,
  "incoming".toList,
  "at".toList,
  "and".toList,
  "- premium essential".toList,
  "- premium enhanced".toList,
  ". 19".toList,
  ",".toList,
  ".5 gs".toList,
  ".5 gx".toList,
  "- t6".toList,
  "hatchback".toList,
  "série de bm".toList]

/-- red-flag words of validate_trim: any substring occurrence invalidates the trim -/
def wordsToCheck : List LC := [
  "low kilometers".toList,
  "low kilometres".toList,
  "familiale".toList,
  "manuelle".toList,
  "certified".toList,
  "delivered".toList,
  "excellent".toList,
  "automatique".toList,
  "apple".toList,
  "local".toList,
  "camera".toList,
  "nouvel".toList,
  "backup".toList,
  "extra".toList,
  "pano".toList,
  "panoramic".toList,
  "remote".toList,
  "rear".toList,
  "recent".toList,
  "incoming".toList,
  "modèle".toList,
  "nav".toList,
  "commodité".toList,
  "just".toList,
  "arrived".toList,
  "arrival".toList,
  "sold".toList,
  "ensemble".toList,
  "vdpurlen".toList,
  "édition".toList,
  "cuir".toList,
  "navi".toList,
  "panoroof".toList,
  "toit".toList,
  "only".toList,
  "power".toList,
  "ac".toList,
  "carfax".toList,
  "clean".toList,
  "owner".toList,
  "accident".toList,
  "finance".toList,
  "financement".toList,
  "mois".toList,
  "commodités".toList,
  "certification".toList,
  "credit".toList,
  "approval".toList,
  "avec".toList,
  "aucun".toList,
  "bluetooth".toList,
  "headup".toList,
  "owned".toList,
  "delivery".toList,
  "deal".toList,
  "hurry".toList,
  "chauff".toList,
  "arrivage".toList,
  "navigat".toList,
  "jamais".toList,
  "heated".toList,
  "seats".toList,
  "moonroof".toList,
  "angles".toList,
  "leather".toList,
  "rapporte".toList,
  "garantie".toList,
  "recul".toList,
  "vitesse".toList,
  "interieur".toList,
  "located".toList,
  "touchscreen".toList,
  "sale".toList,
  "dfthiver".toList,
  "volant".toList,
  "chauf".toList,
  "ans inclus".toList,
  ".rec".toList,
  "morts".toList,
  "#".toList,
  "%".toList]

/-- bmw correction map -/
def bmwTrimCorrectionMapping : List (LC × LC) := [
  ("competition coupe m".toList, "competition m coupe".toList),
  ("m-sport".toList, "m sport".toList),
  ("msport".toList, "m sport".toList),
  ("m competition".toList, "competition m".toList),
  ("m-competition".toList, "competition m".toList),
  ("conv".toList, "convertible".toList)]

/-- bmw extra invalid trims -/
def invalidBmwTrims : List LC := [
  "bmw".toList,
  "prem".toList]

/-- bmw extra stopwords -/
def bmwWordsToRemove : List LC := [
  "xdrive".toList]

/-- toyota correction map -/
def toyotaTrimCorrectionMapping : List (LC × LC) := [
  ("limited pkg".toList, "limited".toList),
  ("limited hybrid".toList, "hybrid limited".toList),
  ("xle hybrid".toList, "hybrid xle".toList),
  ("xle hybride".toList, "hybrid xle".toList),
  ("le hybrid".toList, "hybrid le".toList),
  ("xse hybrid".toList, "hybrid xse".toList),
  ("trd off-road".toList, "trd off road".toList),
  ("hybride".toList, "hybrid".toList),
  ("se 6m".toList, "se".toList),
  ("se model".toList, "se".toList),
  ("-e".toList, "hybrid".toList),
  ("tech".toList, "technology".toList)]

/-- toyota extra invalid trims -/
def invalidToyotaTrims : List LC := [
  "wgn".toList,
  "wgn v6".toList]

/-- audi correction map (duplicate keys preserved; lookup is last-wins as in a Python dict literal) -/
def audiTrimCorrectionMapping : List (LC × LC) := [
  ("progressiv 2.0 tfsi".toList, "2.0 tfsi progressiv".toList),
  ("technik 3.0 tfsi".toList, "3.0 tfsi technik".toList),
  ("progressiv 3.0 tfsi".toList, "3.0 tfsi progressiv".toList),
  ("progressiv 2.0 tfsi".toList, "2.0 tfsi progressiv".toList),
  ("technik 2.0 tfsi".toList, "2.0 tfsi technik".toList),
  ("komfort 2.0 tfsi".toList, "2.0 tfsi komfort".toList),
  ("komfort 2.0 tfsi".toList, "2.0 tfsi komfort".toList),
  ("2.0t qtro".toList, "2.0t".toList),
  ("progressive".toList, "progressiv".toList),
  ("conv".toList, "convertible".toList)]

/-- audi extra invalid trims -/
def invalidAudiTrims : List LC := [
  "progressivfinancement a 5.99 60 mois".toList,
  "komfort gr".toList]

/-- audi extra stopwords -/
def audiWordsToRemove : List LC := [
  "tiptronic".toList,
  "s tronic".toList,
  "quattro".toList]

/-- honda extra invalid trims -/
def invalidHondaTrims : List LC := [
  "lxgarantie 10ans200000km".toList,
  "2 portes".toList]

/-- honda extra stopwords -/
def hondaWordsToRemove : List LC := [
  "garantie 10 ans 200 000 km".toList,
  "garantie 10 ans200 000 km".toList,
  "navicuirtoit.ouvrant".toList,
  "garantie 10 ans".toList,
  "ouvrant2 cameras".toList,
  "honda".toList,
  "ivt".toList,
  "dct".toList]

/-- ford correction map -/
def fordTrimCorrectionMapping : List (LC × LC) := [
  ("xltsport".toList, "xlt sport".toList),
  ("xlt cabine supercrew 4rm caisse de 6".toList, "xlt supercrew 6.5ft box".toList),
  ("xlt cabine supercrew caisse de 6".toList, "xlt supercrew 6.5ft box".toList),
  ("lariat cabine supercrew caisse de 6".toList, "lariat supercrew 6.5ft box".toList),
  ("lariat cabine supercrew caisse de 5".toList, "lariat supercrew 5.5ft box".toList),
  ("xlt cabine supercrew caisse de 5".toList, "xlt supercrew 5.5ft box".toList),
  ("xlt supercrew 5.5-ft".toList, "xlt supercrew 5.5ft box".toList),
  ("eco".toList, "ecoboost".toList),
  ("150 lightning-lariat cabine supercrew caisse de 5".toList, "150 lightning-lariat".toList),
  ("150 lightning-xlt cabine supercrew caisse de 5".toList, "150 lightning-xlt supercrew 5.5ft box".toList),
  ("150-lariat cabine supercrew caisse de 5".toList, "150-lariat supercrew 5.5ft box".toList),
  ("150-lariat cabine supercrew caisse de 6".toList, "150-lariat".toList),
  ("150-xlt cabine supercrew caisse de 5".toList, "supercab 145 xlt".toList),
  ("150-xlt cabine supercrew caisse de 6".toList, "150-xlt supercab 6.5ft box".toList),
  ("xlt cabine supercrew caisse de 5 pi".toList, "xlt supercrew 5.5ft box".toList),
  ("conv".toList, "convertible".toList),
  ("conv v6".toList, "convertible v6".toList),
  ("conv v6 premium".toList, "convertible v6 premium".toList),
  ("conv gt".toList, "convertible gt".toList)]

/-- ford literal allowlist for unknown-trim backfill -/
def validFordTrims : List LC := [
  "se".toList,
  "xlt".toList,
  "sel".toList,
  "titanium".toList,
  "lariat".toList,
  "limited".toList,
  "st".toList,
  "gt premium".toList,
  "sport".toList,
  "platinum".toList,
  "xl".toList,
  "gt".toList,
  "big bend".toList,
  "ecoboost".toList,
  "titanium hybrid".toList,
  "xlt supercrew 5.5".toList,
  "ecoboost premium".toList,
  "outer banks".toList,
  "ses".toList,
  "raptor".toList,
  "badlands".toList,
  "xlt sport".toList,
  "king ranch".toList,
  "limited max".toList,
  "se hatchback".toList]

/-- porsche extra stopwords (the source reuses this same variable for the chevrolet call) -/
def porscheWordsToRemove : List LC := [
  "pdk".toList,
  "coupe".toList]

/-- chevrolet correction map -/
def chevroletTrimCorrectionMapping : List (LC × LC) := [
  ("silverado custom".toList, "custom".toList),
  ("reg cab".toList, "regular cab".toList),
  ("custom crew".toList, "custom crew cab".toList),
  ("dbl crew".toList, "double cab".toList),
  ("crew lt".toList, "crew cab lt".toList),
  ("cre".toList, "crew cab".toList),
  ("conv".toList, "convertible".toList)]

/-- chrysler correction map -/
def chryslerTrimCorrectionMapping : List (LC × LC) := [
  ("touring l plus".toList, "touring-l plus".toList),
  ("touring l".toList, "touring-l".toList),
  ("tourisme".toList, "touring".toList),
  ("300 s".toList, "s".toList),
  ("300 touring".toList, "touring".toList),
  ("300 c".toList, "c".toList),
  ("stow nftgo".toList, "stow n go".toList),
  ("stow’n go".toList, "stow n go".toList),
  ("sxt stow nftgo".toList, "sxt stow n go".toList)]

/-- dodge correction map -/
def dodgeTrimCorrectionMapping : List (LC × LC) := [
  ("canada value pkg".toList, "canada value package".toList),
  ("cvp".toList, "canada value package".toList),
  ("canada value".toList, "canada value package".toList),
  ("cvpsxt".toList, "cvp sxt".toList),
  ("groupe valeur canada".toList, "canada value package".toList),
  ("groupe valeur canada".toList, "canada value package".toList),
  ("35th anniversary edition".toList, "35th anniversary".toList),
  ("30th anniversary edition".toList, "30th anniversary".toList),
  ("sxt stow’n go".toList, "sxt stow n go".toList),
  (("sxt stow n".toList ++ ('\'' :: "go".toList)), "sxt stow n go".toList),
  ("sxt stow & go".toList, "sxt stow n go".toList),
  ("sxt stow&go".toList, "sxt stow n go".toList),
  ("sxt stowftn go".toList, "sxt stow n go".toList),
  ("se stow go".toList, "se stow n go".toList),
  ("sxt stow go".toList, "sxt stow n go".toList),
  ("stow go".toList, "stow n go".toList),
  ("gtawd".toList, "gt".toList),
  ("r-t".toList, "rt".toList),
  ("crew".toList, "crew cab".toList)]

/-- dodge extra stopwords -/
def dodgeWordsToRemove : List LC := [
  "wgn".toList,
  "cam. de".toList,
  "i".toList]

/-- hyundai correction map -/
def hyundaiTrimCorrectionMapping : List (LC × LC) := [
  ("essentiel".toList, "essential".toList),
  ("cvp".toList, "canada value package".toList),
  ("pref".toList, "preferred".toList),
  ("prefered".toList, "preferred".toList),
  ("preffered".toList, "preferred".toList),
  ("man l".toList, "l".toList),
  ("man gl".toList, "gl".toList),
  ("man gls".toList, "gls".toList),
  ("preferred 2.0l".toList, "2.0l preferred".toList),
  ("preferred 2.0t".toList, "2.0t preferred".toList),
  ("preferred 2.4".toList, "2.4l preferred".toList),
  ("lux".toList, "luxury".toList),
  ("preferred electric".toList, "preferred ev".toList)]

/-- hyundai extra stopwords -/
def hyundaiWordsToRemove : List LC := [
  "ivt".toList,
  "dct".toList]

/-- land rover correction map -/
def landroverTrimCorrectionMapping : List (LC × LC) := [
  ("hse lux".toList, "hse luxury".toList),
  ("lux".toList, "luxury".toList)]

/-- tesla correction map -/
def teslaTrimCorrectionMapping : List (LC × LC) := [
  ("rwd".toList, "standard range".toList),
  ("standard plus".toList, "standard range plus".toList),
  ("long range i awd".toList, "long range dual motor".toList),
  ("long range dual motor awd".toList, "long range dual motor".toList),
  ("long range awd full self drive".toList, "long range dual motor autopilot".toList),
  ("long range full self drive".toList, "long range autopilot".toList),
  ("long range battery".toList, "long range".toList),
  ("standard range plus full self drive".toList, "standard range plus autopilot".toList),
  ("standard range plus pilot".toList, "standard range plus autopilot".toList),
  ("longue autonomie ti".toList, "long range autopilot".toList),
  ("longue autonomie".toList, "long range autopilot".toList),
  ("autonomie standard plus".toList, "standard range plus autopilot".toList),
  ("autonomie standard plus pa".toList, "standard range plus autopilot".toList),
  ("standard range plus autopi".toList, "standard range plus autopilot".toList),
  ("long range 500km autonomie 500k".toList, "long range autopilot".toList),
  ("performance full self drive".toList, "performance autopilot".toList),
  ("long range ltd avail".toList, "long range -ltd avail".toList),
  ("standard range ltd avail".toList, "standard range -ltd avail".toList),
  ("standard".toList, "standard range".toList),
  ("dual motor long range".toList, "long range dual motor".toList),
  ("dual motor standard range".toList, "standard range dual motor".toList),
  ("long range autonome".toList, "long range autopilot".toList),
  ("autonome standard plus".toList, "standard range plus".toList),
  ("autonome standard plus pa".toList, "standard range plus".toList),
  ("longue autonome".toList, "long range autopilot".toList),
  ("longue autonome t".toList, "long range autopilot".toList),
  ("sr".toList, "standard range".toList),
  ("pilot".toList, "autopilot".toList),
  ("dual motor".toList, "long range dual motor".toList),
  ("de performance".toList, "performance dual motor".toList),
  ("standard range plus w autopilot".toList, "standard range plus autopilot".toList),
  ("long range autonomie".toList, "long range autopilot".toList),
  ("base".toList, "standard range".toList),
  ("long range dual motors".toList, "long range dual motor".toList),
  ("long range pilot".toList, "long range autopilot".toList),
  ("autopilot standard plus".toList, "standard range plus autopilot".toList),
  ("autopilot standard plus pa".toList, "standard range plus autopilot".toList),
  ("longue autopilot".toList, "long range autopilot".toList)]

/-- tesla extra invalid trims -/
def invalidTeslaTrims : List LC := [
  "model 3".toList,
  "model s".toList,
  "model y".toList,
  "x".toList,
  "s".toList,
  "3".toList,
  "360".toList,
  "electric".toList,
  "elect".toList,
  "lo".toList]

/-- tesla extra stopwords -/
def teslaWordsToRemove : List LC := [
  "i".toList,
  "over 30 teslas in stock".toList,
  "and ready".toList,
  "wow".toList,
  "sky view".toList,
  "glass".toList,
  "glassroof".toList,
  "ti".toList,
  "de".toList,
  "electric".toList]

/-- nissan extra stopwords -/
def nissanWordsToRemove : List LC := [
  "chauffantsbluetooth".toList,
  "svmagcamérabancs".toList,
  "svawdmagcamérabancs".toList,
  "électriquecamérabluetooth".toList,
  "awdmagcamérabancs".toList,
  "acgr".toList,
  "awdtoit".toList,
  "360gpscuir".toList,
  "slawdcamera 360cuirtoit panomags".toList,
  "bluetoothregul.vitesseac".toList]

/-- kia extra stopwords -/
def kiaWordsToRemove : List LC := [
  "jamais accidentégarantie 10 ans200 000km".toList,
  "jamais accidentégarantie 10 ans200 000km".toList,
  "apple car playgarantie 10ans200 000km".toList,
  "garantie 10 ans".toList,
  "ivt".toList,
  "at".toList,
  "man".toList,
  "air".toList,
  "bm".toList,
  "ba".toList,
  "gr".toList]

/-- ram correction map -/
def ramTrimCorrectionMapping : List (LC × LC) := [
  ("crew".toList, "crew cab".toList),
  ("crewcab".toList, " crew cab".toList),
  ("cre".toList, "crew cab".toList),
  ("cabine quad".toList, "quad cab 140.5 st".toList),
  ("quad cab 140.5\" st".toList, "quad cab 140.5 st".toList),
  ("laramie crew".toList, "laramie crew cab".toList),
  ("rebel crew 5ft7inch box".toList, "rebel crew 5ft7 box".toList),
  ("1500".toList, "base".toList),
  ("bighorn".toList, "big horn".toList),
  ("crew 140.5inch big horn".toList, "crew 140.5 big horn".toList),
  ("crew 140.5inch sport".toList, "crew 140.5 sport".toList),
  ("crew 140.5inch st".toList, "crew 140.5 st".toList),
  ("express crew 5ft7inch box".toList, "express crew 5ft7 box".toList),
  ("express cabine dftéquipe caisse de 5 pi 7 po".toList, "express crew 5ft7 box".toList),
  ("express crew bte std . night edi".toList, "express night".toList),
  ("longhorn limited".toList, "limited longhorn".toList),
  ("ltd".toList, "limited".toList),
  ("reg".toList, "base".toList),
  ("regular".toList, "base".toList)]

/-- subaru correction map -/
def subaruTrimCorrectionMapping : List (LC × LC) := [
  ("2.5i w-touring pkg".toList, "2.5i touring".toList),
  ("2.5i touring package".toList, "2.5i touring".toList),
  ("3.6r limited package".toList, "3.6r limited".toList),
  ("tourisme".toList, "touring".toList),
  ("2.5i tourisme".toList, "2.5i touring".toList)]

/-- subaru extra stopwords -/
def subaruWordsToRemove : List LC := [
  "bm".toList,
  "man".toList,
  "at".toList,
  "mag".toList,
  "man".toList,
  "super".toList,
  "weyesight".toList,
  "w-eyesight".toList,
  "eyesight".toList,
  "w-".toList]

/-- mini correction map (duplicate keys preserved; lookup is last-wins) -/
def miniTrimCorrectionMapping : List (LC × LC) := [
  ("jcw".toList, "john cooper works".toList),
  ("jc".toList, "john cooper works".toList),
  ("cooper s".toList, "s".toList),
  ("s model".toList, "s".toList),
  ("cooper".toList, "base".toList),
  ("hardtop".toList, "base".toList),
  ("cooper se".toList, "se".toList),
  ("cooper s all4".toList, "s".toList),
  ("all4 s".toList, "s".toList),
  ("cooper".toList, "base".toList),
  ("3 door".toList, "base".toList),
  ("3-door".toList, "base".toList),
  ("5 door".toList, "base".toList),
  ("5-door".toList, "base".toList),
  ("5-door".toList, "base".toList),
  ("classic".toList, "base classic line".toList),
  ("base classic".toList, "base classic line".toList),
  ("base premier".toList, "base premier line".toList),
  ("premier".toList, "base premier line".toList),
  ("premier".toList, "base premier line".toList)]

/-- mini extra stopwords -/
def miniWordsToRemove : List LC := [
  "super".toList,
  "all4".toList]

/-- cadillac correction map -/
def cadillacTrimCorrectionMapping : List (LC × LC) := [
  ("luxury 2.0t".toList, "2.0t luxury".toList),
  ("luxury 2.0l".toList, "2.0l luxury".toList),
  ("luxe".toList, "luxury".toList)]

/-- cadillac extra stopwords -/
def cadillacWordsToRemove : List LC := [
  "collection".toList]

/-- infiniti correction map -/
def infinitiTrimCorrectionMapping : List (LC × LC) := [
  ("technology".toList, "tech".toList),
  ("technologie".toList, "tech".toList),
  ("sport tech".toList, "sport tech".toList),
  ("sport-tech".toList, "sport tech".toList),
  ("premium-tech".toList, "premium tech".toList),
  ("premium tech".toList, "premium tech".toList),
  ("essentiel".toList, "essential".toList)]

/-- infiniti extra stopwords -/
def infinitiWordsToRemove : List LC := [
  "proassist".toList]

/-- infiniti extra invalid trims -/
def invalidInfinitiTrims : List LC := [
  "qx60".toList,
  "sun".toList,
  "ti".toList,
  "i".toList,
  "utility".toList,
  "safety".toList]

/-- mercedes-benz correction map (duplicate keys preserved; lookup is last-wins) -/
def mercedesTrimCorrectionMapping : List (LC × LC) := [
  ("c 300".toList, "c300".toList),
  ("c 300 4 matic".toList, "c300".toList),
  ("c 300 coupe".toList, "c300 coupe".toList),
  ("c 300 wagon".toList, "c300 wagon".toList),
  ("c 300 amg".toList, "c300 amg".toList),
  ("c 450 amg".toList, "c450 amg".toList),
  ("c 400".toList, "c400".toList),
  ("c 350".toList, "c350".toList),
  ("c 250".toList, "c250".toList),
  ("amg c 43".toList, "c43 amg".toList),
  ("c 43 amg".toList, "c43 amg".toList),
  ("c 63 amg".toList, "c63 amg".toList),
  ("glc 300".toList, "glc300".toList),
  ("glc 300 premium".toList, "glc300 premium".toList),
  ("glc 300 coupe".toList, "glc300 coupe".toList),
  ("glc 300 amg".toList, "glc300 amg".toList),
  ("glc 350e".toList, "glc350e".toList),
  ("amg glc 43".toList, "amg glc 43".toList),
  ("gle 400".toList, "gle400".toList),
  ("gle 450".toList, "gle450".toList),
  ("gle 350".toList, "gle350".toList),
  ("gle 350d".toList, "gle350d".toList),
  ("cla 250".toList, "cla250".toList),
  ("cla 250 amg".toList, "cla250 amg".toList),
  ("cla 250 coupe".toList, "cla250 coupe".toList),
  ("gla 250".toList, "gla250".toList),
  ("gla 250 4 matic".toList, "gla250".toList),
  ("gla 45 amg".toList, "gla45 amg".toList),
  ("e 300".toList, "e300".toList),
  ("e 400".toList, "e400".toList),
  ("e 350".toList, "e350".toList),
  ("e 250 bluetec".toList, "e250 bluetec".toList),
  ("e 550".toList, "e550".toList),
  ("e 450".toList, "e450".toList),
  ("e 400 coupe".toList, "e400 coupe".toList),
  ("e 53 amg".toList, "e53 amg".toList),
  ("a 250".toList, "a250".toList),
  ("a 250 premium".toList, "a250 premium".toList),
  ("a 220".toList, "a220".toList),
  ("b 250 routière sport".toList, "b250 sports tourer".toList),
  ("b 250 sports tourer".toList, "b250 sports tourer".toList),
  ("b 250".toList, "b250".toList),
  ("s 550".toList, "s550".toList),
  ("s 550 lwb".toList, "s550 lwb".toList),
  ("s 560".toList, "s560".toList),
  ("s 580".toList, "s580".toList),
  ("amg s 63".toList, "s63 amg".toList),
  ("glk 250 bluetec".toList, "glk250 bluetec".toList),
  ("glk 350".toList, "glk350".toList),
  ("gls 450".toList, "gls450".toList),
  ("gls 550".toList, "gls550".toList),
  ("ml 350 bluetec".toList, "ml350 bluetec".toList),
  ("ml 350".toList, "ml350".toList),
  ("g 550".toList, "g550".toList),
  ("c 300".toList, "c300".toList),
  ("c 300 sport".toList, "c300 sport".toList),
  ("c 43 amg".toList, "c43 amg".toList),
  ("c 43 amg premium".toList, "c43 amg premium".toList),
  ("cla 45 amg".toList, "cla45 amg".toList),
  ("cls 550".toList, "cls550".toList),
  ("e 400".toList, "e400".toList),
  ("g 63 amg".toList, "g63 amg".toList),
  ("gl 350 bluetec".toList, "gl350 bluetec".toList),
  ("glb 250".toList, "glb250".toList),
  ("glc 43 amg".toList, "glc43 amg".toList),
  ("gle 450 amg".toList, "gle450 amg".toList),
  ("gle 53".toList, "gle53".toList),
  ("gls 450 amg".toList, "gls450 amg".toList),
  ("ml 63 amg".toList, "ml63 amg".toList),
  ("amg g 63".toList, "g63 amg".toList),
  ("amg a 35".toList, "amg a35".toList),
  ("amg c 43".toList, "amg c43".toList),
  ("amg c 43 coupe".toList, "amg c43 coupe".toList),
  ("amg c43".toList, "amg c43".toList),
  ("amg cls 53".toList, "amg cls53".toList),
  ("amg cls 53 coupe".toList, "amg cls53 coupe".toList),
  ("amg cls 63 s".toList, "amg cls63 s".toList),
  ("amg e 43".toList, "amg e43".toList),
  ("amg e 53".toList, "amg e53".toList),
  ("amg gla 35".toList, "amg gla35".toList),
  ("amg gla 45".toList, "amg gla45".toList),
  ("amg glc 43".toList, "amg glc43".toList),
  ("amg glc 43 coupe".toList, "amg glc43 coupe".toList),
  ("amg glc 63 s".toList, "amg glc63 s".toList),
  ("amg gle 43".toList, "amg gle43".toList),
  ("amg gle 43 coupe".toList, "amg gle43 coupe".toList),
  ("amg gle 53".toList, "amg gle53".toList),
  ("amg gle 63 s".toList, "amg gle63 s".toList),
  ("amg gls 63".toList, "amg gls63".toList)]

/-- mercedes-benz extra stopwords -/
def mercedesWordsToRemove : List LC := [
  "4matic".toList,
  "4 matic".toList]

/-- gmc correction map -/
def gmcTrimCorrectionMapping : List (LC × LC) := [
  ("reg".toList, "regular".toList),
  ("cre".toList, "crew cab".toList)]

/-- volkswagen extra stopwords -/
def volkswagenWordsToRemove : List LC := [
  "w heat sts".toList,
  "b. spo".toList,
  "4 motion".toList,
  "4motion".toList]

/-- mazda correction map -/
def mazdaTrimCorrectionMapping : List (LC × LC) := [
  ("gt wturbo".toList, "gt turbo".toList),
  ("gt w-turbo".toList, "gt turbo".toList),
  ("gs-sky".toList, "gs".toList),
  ("sport gs-sky".toList, "sport gs".toList),
  ("gt-sky".toList, "gt".toList),
  ("gx-sky".toList, "gx".toList),
  ("gtawd".toList, "gt".toList),
  ("conv gt".toList, "gt convertible".toList)]

/-- mazda extra stopwords -/
def mazdaWordsToRemove : List LC := [
  "air".toList,
  "at".toList,
  "sky".toList]

/-- mitsubishi extra stopwords -/
def mitsubishiWordsToRemove : List LC := [
  "s-awc".toList,
  "awc".toList]

/-- lexus extra stopwords -/
def lexusWordsToRemove : List LC := [
  "series".toList]

/-- punctuation characters that clean_trim replaces with a space -/
def charactersToRemove : List Char := ['!', '*', '/', '+', '~', '<', '>', '\"', '®', '™', '\\', ';', '&']

/-- the ordered (target column, substring, value) rules of extract_info_from_trim -/
def updateList : List (Col × LC × LC) := [
  (Col.bodytype, "sedan".toList, "sedan".toList),
  (Col.bodytype, "coupe".toList, "coupe".toList),
  (Col.bodytype, "hatchback".toList, "hatchback".toList),
  (Col.bodytype, "hatch".toList, "hatchback".toList),
  (Col.bodytype, "hayon".toList, "hatchback".toList),
  (Col.bodytype, "2 portes".toList, "coupe".toList),
  (Col.bodytype, "convertible".toList, "convertible".toList),
  (Col.bodytype, "cabriolet".toList, "cabriolet".toList),
  (Col.fueltype, "diesel".toList, "diesel".toList),
  (Col.fueltype, "bluetec".toList, "diesel".toList),
  (Col.fueltype, "tdi".toList, "diesel".toList),
  (Col.fueltype, "hybrid".toList, "hybrid".toList),
  (Col.fueltype, "hybride".toList, "hybrid".toList),
  (Col.fueltype, "hybride branchable".toList, "hybrid".toList),
  (Col.fueltype, "vehicule electrique".toList, "electric".toList),
  (Col.fueltype, "electric motor".toList, "electric".toList),
  (Col.drivetrain, "4 roues motrices".toList, "AWD".toList),
  (Col.drivetrain, "all wheel drive".toList, "AWD".toList),
  (Col.drivetrain, "quattro".toList, "AWD".toList),
  (Col.drivetrain, "4 matic".toList, "AWD".toList),
  (Col.drivetrain, "4matic".toList, "AWD".toList),
  (Col.drivetrain, "awd".toList, "AWD".toList),
  (Col.drivetrain, "4wd".toList, "AWD".toList),
  (Col.drivetrain, "dual motor".toList, "AWD".toList),
  (Col.drivetrain, "4x4".toList, "AWD".toList),
  (Col.drivetrain, "all4".toList, "AWD".toList),
  (Col.drivetrain, "2wd".toList, "FWD".toList),
  (Col.drivetrain, "2rm".toList, "FWD".toList),
  (Col.drivetrain, "traction intégrale".toList, "AWD".toList),
  (Col.drivetrain, "traction integrale".toList, "AWD".toList),
  (Col.drivetrain, "xdrive".toList, "AWD".toList),
  (Col.drivetrain, "quattro".toList, "AWD".toList),
  (Col.drivetrain, "4motion".toList, "AWD".toList),
  (Col.drivetrain, "rwd".toList, "RWD".toList),
  (Col.drivetrain, "fwd".toList, "FWD".toList),
  (Col.transmission, "cvt".toList, "auto".toList),
  (Col.transmission, "ivt".toList, "auto".toList),
  (Col.transmission, "dct".toList, "auto".toList),
  (Col.transmission, "pdk".toList, "auto".toList),
  (Col.transmission, "dsg".toList, "auto".toList),
  (Col.transmission, "ivt".toList, "auto".toList),
  (Col.transmission, "s-tronic".toList, "auto".toList),
  (Col.transmission, "tiptronic".toList, "auto".toList),
  (Col.transmission, "6mt".toList, "manual".toList),
  (Col.transmission, "manuelle".toList, "manual".toList),
  (Col.transmission, "manual".toList, "manual".toList),
  (Col.transmission, "manuel".toList, "manual".toList)]

/-- uppercase/lowercase pairs of ASCII and Latin-1; Python str.lower restricted
    to the character range this data set uses -/
def upperLowerPairs : List (Char × Char) := [
  ('A','a'), ('B','b'), ('C','c'), ('D','d'), ('E','e'), ('F','f'), ('G','g'),
  ('H','h'), ('I','i'), ('J','j'), ('K','k'), ('L','l'), ('M','m'), ('N','n'),
  ('O','o'), ('P','p'), ('Q','q'), ('R','r'), ('S','s'), ('T','t'), ('U','u'),
  ('V','v'), ('W','w'), ('X','x'), ('Y','y'), ('Z','z'),
  ('À','à'), ('Á','á'), ('Â','â'), ('Ã','ã'), ('Ä','ä'), ('Å','å'), ('Æ','æ'),
  ('Ç','ç'), ('È','è'), ('É','é'), ('Ê','ê'), ('Ë','ë'), ('Ì','ì'), ('Í','í'),
  ('Î','î'), ('Ï','ï'), ('Ð','ð'), ('Ñ','ñ'), ('Ò','ò'), ('Ó','ó'), ('Ô','ô'),
  ('Õ','õ'), ('Ö','ö'), ('Ø','ø'), ('Ù','ù'), ('Ú','ú'), ('Û','û'), ('Ü','ü'),
  ('Ý','ý'), ('Þ','þ')]

/-- Python str.lower on one character -/
def toLowerChar (c : Char) : Char :=
  match upperLowerPairs.find? (fun p => p.1 == c) with
  | some p => p.2
  | Option.none => c

/-- Python str.lower -/
def toLowerStr (s : LC) : LC := s.map toLowerChar

/-- Python regex whitespace class (ASCII range) -/
def isSpaceChar (c : Char) : Bool :=
  c == ' ' || c == '\t' || c == '\n' || c == '\r' || c == '\x0b' || c == '\x0c'

/-- remove_extra_spaces: re.sub of a whitespace run by one space; the boolean
    records whether the previous character was whitespace -/
def collapseSpacesAux : Bool → List Char → List Char
  | _, [] => []
  | prevSp, c :: rest =>
    if isSpaceChar c then
      if prevSp then collapseSpacesAux true rest
      else ' ' :: collapseSpacesAux true rest
    else c :: collapseSpacesAux false rest

/-- remove_extra_spaces of the source -/
def removeExtraSpaces (s : LC) : LC := collapseSpacesAux false s

/-- Python str.strip -/
def stripWS (s : LC) : LC :=
  ((s.dropWhile isSpaceChar).reverse.dropWhile isSpaceChar).reverse

/-- Python str.rstrip with a set of characters -/
def rstripSet (s : LC) (cs : List Char) : LC :=
  (s.reverse.dropWhile (fun c => cs.contains c)).reverse

/-- Python substring containment (the in operator on str) -/
def containsSub : LC → LC → Bool
  | [], pat => pat.isEmpty
  | c :: rest, pat => pat.isPrefixOf (c :: rest) || containsSub rest pat

/-- the text before the first occurrence of w, as in s.split(w, 1)[0] -/
def splitFirstBefore : LC → LC → LC
  | [], _ => []
  | c :: rest, w => if w.isPrefixOf (c :: rest) then [] else c :: splitFirstBefore rest w

/-- truncate_after_words: keep the text before the first marker, in marker-list
    order, that occurs anywhere in the string, and strip it -/
def truncateAfterWords (s : LC) (ws : List LC) : LC :=
  match ws.find? (fun w => containsSub s w) with
  | some w => stripWS (splitFirstBefore s w)
  | Option.none => s

/-- one pass of re.sub over an alternation of literal keys: at each position the
    first key (in declaration order) that matches is replaced and scanning
    resumes after the replacement -/
def substAllF : Nat → List (LC × LC) → List Char → List Char
  | 0, _, s => s
  | _ + 1, _, [] => []
  | n + 1, rules, c :: rest =>
    match rules.find? (fun kv => kv.1.isPrefixOf (c :: rest)) with
    | some kv => kv.2 ++ substAllF n rules (rest.drop (kv.1.length - 1))
    | Option.none => c :: substAllF n rules rest

/-- translate_string with sort_translations_keys left False, as called -/
def translateString (rules : List (LC × LC)) (s : LC) : LC := substAllF s.length rules s

/-- Python str.replace(w, empty): delete all non-overlapping occurrences,
    scanning left to right -/
def removeAllSubF : Nat → List Char → LC → List Char
  | 0, s, _ => s
  | _ + 1, [], _ => []
  | n + 1, c :: rest, w =>
    if !w.isEmpty && w.isPrefixOf (c :: rest) then removeAllSubF n (rest.drop (w.length - 1)) w
    else c :: removeAllSubF n rest w

/-- Python str.replace(w, empty) -/
def removeAllSub (s : LC) (w : LC) : LC := removeAllSubF s.length s w

/-- Python regex word character: alphanumeric or underscore, with the Latin-1
    letters this data set uses (multiplication and division signs excluded) -/
def isWordChar (c : Char) : Bool :=
  c.isAlphanum || c == '_' ||
    (192 ≤ c.toNat && c.toNat ≤ 255 && c.toNat != 215 && c.toNat != 247)

/-- word-character test where out-of-string counts as not a word character -/
def isWordCharOpt : Option Char → Bool
  | Option.none => false
  | some c => isWordChar c

/-- the regex word boundary between two adjacent positions -/
def wordBoundary (a b : Option Char) : Bool := isWordCharOpt a != isWordCharOpt b

/-- one pass of re.sub over a word-boundary-anchored alternation of literal
    words, deleting each match; prev is the character before the current
    position -/
def wordSubF : Nat → List LC → Option Char → List Char → List Char
  | 0, _, _, s => s
  | _ + 1, _, _, [] => []
  | n + 1, ws, prev, c :: rest =>
    if wordBoundary prev (some c) then
      match ws.find? (fun w => w.isPrefixOf (c :: rest) &&
          wordBoundary w.getLast? (((c :: rest).drop w.length).head?)) with
      | some w => wordSubF n ws w.getLast? (rest.drop (w.length - 1))
      | Option.none => c :: wordSubF n ws (some c) rest
    else c :: wordSubF n ws (some c) rest

/-- the whole-word stopword removal pass of clean_trim -/
def removeSimpleWords (ws : List LC) (s : LC) : LC := wordSubF s.length ws Option.none s

/-- Python str.split with no separator: split on whitespace runs, no empties;
    cur accumulates the current word reversed -/
def splitWSAux : List Char → List Char → List LC
  | [], cur => if cur.isEmpty then [] else [cur.reverse]
  | c :: rest, cur =>
    if isSpaceChar c then
      if cur.isEmpty then splitWSAux rest []
      else cur.reverse :: splitWSAux rest []
    else splitWSAux rest (c :: cur)

/-- Python str.split with no separator -/
def splitWS (s : LC) : List LC := splitWSAux s []

/-- keep the first occurrence of every word, in order of first appearance -/
def dedupKeepFirst : List LC → List LC → List LC
  | _, [] => []
  | seen, w :: rest =>
    if seen.contains w then dedupKeepFirst seen rest
    else w :: dedupKeepFirst (w :: seen) rest

/-- Python space-join of a word list -/
def joinSpace : List LC → LC
  | [] => []
  | [w] => w
  | w :: ws => w ++ ' ' :: joinSpace ws

/-- remove_duplicate_words of the source -/
def removeDuplicateWords (s : LC) : LC := joinSpace (dedupKeepFirst [] (splitWS s))

/-- the apostrophe-to-ft replacement of clean_trim -/
def replaceApos : List Char → List Char
  | [] => []
  | c :: rest => if c == '\'' then 'f' :: 't' :: replaceApos rest else c :: replaceApos rest

/-- clean_trim of the source: every transformation step in source order.  The
    str() coercion of the source is the identity here because the pipeline only
    passes strings; cleanTrimPy below also covers the None case -/
def cleanTrim (trim0 : LC) (addUnwantedWords : List LC) : LC :=
  let t1 := toLowerStr trim0
  let t2 := truncateAfterWords t1 truncationMarkers
  let t3 := t2.map (fun c => if charactersToRemove.contains c then ' ' else c)
  let t4 := replaceApos t3
  let t5 := stripWS (removeExtraSpaces t4)
  let t6 := translateString trimTranslationMapping t5
  let t7 := complexWordsToRemove.foldl removeAllSub t6
  let t8 := removeSimpleWords (simpleWordsToRemove ++ addUnwantedWords) t7
  let t9 := stripWS (removeExtraSpaces t8)
  let t10 := removeDuplicateWords t9
  let t11 := rstripSet t10 ['-']
  let t12 := rstripSet t11 ['.']
  let t13 := rstripSet t12 [' ', 'w']
  let t14 := rstripSet t13 [' ', 'w', '-']
  let t15 := rstripSet t14 [' ', '&']
  stripWS (removeExtraSpaces t15)

/-- the str() coercion at the head of clean_trim: Python str(None) is None as
    text -/
def pyStr : Option LC → LC
  | Option.none => "None".toList
  | some s => s

/-- clean_trim on an optional (possibly None) input -/
def cleanTrimPy (trim : Option LC) (addUnwantedWords : List LC) : LC :=
  cleanTrim (pyStr trim) addUnwantedWords

/-- check_redflag_words_in_string: pattern.search over an unanchored
    alternation, true when any red-flag word occurs as a substring -/
def redflagSearch (s : LC) : Bool := wordsToCheck.any (fun w => containsSub s w)

/-- validate_trim of the source -/
def validateTrim (trim : LC) (addInvalidTrims : List LC) : LC :=
  if trim ∈ invalidTrimsList ++ addInvalidTrims then unknownLC
  else if redflagSearch trim then unknownLC
  else trim

/-- number of occurrences of a value in a column -/
def countOcc (l : List LC) (v : LC) : Nat := (l.filter (fun x => x == v)).length

/-- the distinct values of a column, in order of first appearance -/
def distinctAux : List LC → List LC → List LC
  | _, [] => []
  | seen, x :: rest =>
    if seen.contains x then distinctAux seen rest
    else x :: distinctAux (x :: seen) rest

/-- the distinct values of a column, in order of first appearance -/
def distinctValues (l : List LC) : List LC := distinctAux [] l

/-- insertion into a count-descending list, keeping earlier entries on ties -/
def insertCntDesc (p : LC × Nat) : List (LC × Nat) → List (LC × Nat)
  | [] => [p]
  | q :: rest => if q.2 < p.2 then p :: q :: rest else q :: insertCntDesc p rest

/-- stable insertion sort by count descending -/
def sortCntDesc (l : List (LC × Nat)) : List (LC × Nat) := l.foldr insertCntDesc []

/-- pandas Series.value_counts: the distinct values with their counts, sorted
    by count descending (pandas leaves the tie order unspecified; here ties
    keep first-appearance order) -/
def valueCounts (l : List LC) : List (LC × Nat) :=
  sortCntDesc ((distinctValues l).map (fun v => (v, countOcc l v)))

/-- insertion into a length-descending list, keeping earlier entries on ties -/
def insertLenDesc (v : LC) : List LC → List LC
  | [] => [v]
  | w :: rest => if w.length < v.length then v :: w :: rest else w :: insertLenDesc v rest

/-- stable insertion sort by string length descending -/
def sortLenDesc (l : List LC) : List LC := l.foldr insertLenDesc []

/-- one listing record with the fields the trim pipeline reads or writes -/
structure Row where
  make : LC
  model : LC
  trim : LC
  bodytype : LC
  fueltype : LC
  drivetrain : LC
  transmission : LC
deriving DecidableEq

/-- a row while the trim_backup column exists -/
structure CRow where
  make : LC
  model : LC
  trim : LC
  trim_backup : LC
  bodytype : LC
  fueltype : LC
  drivetrain : LC
  transmission : LC
deriving DecidableEq

/-- snapshot of the trim column into trim_backup -/
def Row.toCRow (r : Row) : CRow :=
  { make := r.make, model := r.model, trim := r.trim, trim_backup := r.trim,
    bodytype := r.bodytype, fueltype := r.fueltype, drivetrain := r.drivetrain,
    transmission := r.transmission }

/-- dropping the trim_backup column -/
def CRow.toRow (r : CRow) : Row :=
  { make := r.make, model := r.model, trim := r.trim, bodytype := r.bodytype,
    fueltype := r.fueltype, drivetrain := r.drivetrain,
    transmission := r.transmission }

/-- writing one of the four side-channel columns -/
def setCol (r : Row) (c : Col) (v : LC) : Row :=
  match c with
  | Col.bodytype => { r with bodytype := v }
  | Col.fueltype => { r with fueltype := v }
  | Col.drivetrain => { r with drivetrain := v }
  | Col.transmission => { r with transmission := v }

/-- extract_info_from_trim: for each rule in order, overwrite the target column
    of every row whose trim contains the substring (case-insensitively) -/
def extractInfoFromTrim (df : List Row) : List Row :=
  updateList.foldl
    (fun acc rule =>
      acc.map (fun r =>
        if containsSub (toLowerStr r.trim) (toLowerStr rule.2.1) then
          setCol r rule.1 rule.2.2
        else r))
    df

/-- get_sorted_trims_above_threshold of the source: counts of the trim column
    restricted to the make, values at or above the threshold, without the
    literal unknown, longer than two characters, by length descending -/
def getSortedTrimsAboveThreshold (df : List CRow) (make : LC) (threshold : Nat) :
    List LC :=
  let makeTrims := (df.filter (fun r => r.make == make)).map CRow.trim
  let counts := valueCounts makeTrims
  let above := (counts.filter (fun p => threshold ≤ p.2)).map (fun p => p.1)
  let dropped := above.filter (fun v => v != unknownLC)
  let longEnough := dropped.filter (fun v => 2 < v.length)
  sortLenDesc longEnough

/-- update_unknown_trim: second chance for an unknown trim by searching
    trim_backup for the first valid trim in list order, with the Python
    truthiness check on the found string -/
def updateUnknownTrim (r : CRow) (validTrims : List LC) : CRow :=
  if r.trim ≠ unknownLC then r
  else
    match validTrims.find? (fun w => containsSub r.trim_backup w) with
    | some w => if w.isEmpty then r else { r with trim := w }
    | Option.none => r

/-- the valid_trims argument: None, the literal auto, or a literal allowlist -/
inductive VPolicy where
  | vnone
  | vauto
  | vlist (l : List LC)

/-- lookup in a dict literal: a duplicate key keeps its last value, as in a
    Python dict literal -/
def dictGet : List (LC × LC) → LC → Option LC
  | [], _ => Option.none
  | kv :: rest, k =>
    match dictGet rest k with
    | some v => some v
    | Option.none => if kv.1 == k then some kv.2 else Option.none

/-- pandas Series.replace with a dict: exact matches replaced, others kept -/
def dictReplace (m : List (LC × LC)) (t : LC) : LC := (dictGet m t).getD t

/-- the clean, correct and validate steps of process_trim_by_make on the rows
    of the given make; this is the state of the table at the moment an auto
    allowlist is derived.  An empty correction map stands for the Python None
    (both are falsy, so the replace step is skipped) -/
def pbmCleaned (df : List CRow) (make : LC) (corr : List (LC × LC))
    (addUnwantedWords addInvalidTrims : List LC) : List CRow :=
  let s1 := df.map (fun r =>
    if r.make == make then { r with trim := cleanTrim r.trim addUnwantedWords }
    else r)
  let s2 :=
    if corr.isEmpty then s1
    else s1.map (fun r =>
      if r.make == make then { r with trim := dictReplace corr r.trim } else r)
  s2.map (fun r =>
    if r.make == make then { r with trim := validateTrim r.trim addInvalidTrims }
    else r)

/-- process_trim_by_make of the source (an empty allowlist is falsy in Python
    and skips the backfill, like None) -/
def processTrimByMake (df : List CRow) (make : LC) (corr : List (LC × LC))
    (validTrims : VPolicy) (addUnwantedWords addInvalidTrims : List LC)
    (unknownThreshold : Nat) : List CRow :=
  let s3 := pbmCleaned df make corr addUnwantedWords addInvalidTrims
  match validTrims with
  | VPolicy.vauto =>
    let vt := getSortedTrimsAboveThreshold s3 make unknownThreshold
    s3.map (fun r => if r.make == make then updateUnknownTrim r vt else r)
  | VPolicy.vlist l =>
    if l.isEmpty then s3
    else s3.map (fun r => if r.make == make then updateUnknownTrim r l else r)
  | VPolicy.vnone => s3

/-- the astype(str).str.lower() step on the trim column -/
def lowerTrims (df : List Row) : List Row :=
  df.map (fun r => { r with trim := toLowerStr r.trim })

/-- creation of the trim_backup column -/
def snapshotBackup (df : List Row) : List CRow := df.map Row.toCRow

/-- dropping the trim_backup column -/
def dropBackupStage (df : List CRow) : List Row := df.map CRow.toRow

/-- fillna with unknown: after astype(str) every value of the column is a
    string, so there is nothing to fill and the step is the identity -/
def fillUnknownStage (df : List Row) : List Row := df

/-- the global rare-value suppression: a trim value occurring fewer than
    minOccurrences times in the whole table is reset to unknown -/
def suppressRare (df : List Row) (minOccurrences : Nat) : List Row :=
  df.map (fun r =>
    if minOccurrences ≤ countOcc (df.map Row.trim) r.trim then r
    else { r with trim := unknownLC })

/-- the model-name combination step, both source lines: the concatenation and
    the special case for a resulting literal unknown -/
def combineStage (df : List Row) : List Row :=
  let t1 := df.map (fun r => { r with trim := r.model ++ '-' :: r.trim })
  t1.map (fun r =>
    if r.trim == unknownLC then { r with trim := r.model ++ '-' :: unknownLC }
    else r)

/-- the plain combination the spec says the step is equivalent to: set every
    trim to model-trim with no special case (spec-side definition for the
    refinement claim) -/
def combineSpec (df : List Row) : List Row :=
  df.map (fun r => { r with trim := r.model ++ '-' :: r.trim })

/-- the per-make section of process_trim: all 28 calls, in source order, with
    the exact argument values of each call site (including the source reusing
    the porsche stopword list in the chevrolet call) -/
def processAllMakes (df : List CRow) : List CRow :=
  let m01 := processTrimByMake df ("bmw".toList) bmwTrimCorrectionMapping VPolicy.vauto bmwWordsToRemove invalidBmwTrims 4
  let m02 := processTrimByMake m01 ("toyota".toList) toyotaTrimCorrectionMapping VPolicy.vnone [] invalidToyotaTrims 4
  let m03 := processTrimByMake m02 ("audi".toList) audiTrimCorrectionMapping VPolicy.vnone audiWordsToRemove invalidAudiTrims 4
  let m04 := processTrimByMake m03 ("honda".toList) [] VPolicy.vnone hondaWordsToRemove invalidHondaTrims 4
  let m05 := processTrimByMake m04 ("ford".toList) fordTrimCorrectionMapping (VPolicy.vlist validFordTrims) [] [] 4
  let m06 := processTrimByMake m05 ("porsche".toList) [] VPolicy.vnone porscheWordsToRemove [] 4
  let m07 := processTrimByMake m06 ("chevrolet".toList) chevroletTrimCorrectionMapping VPolicy.vnone porscheWordsToRemove [] 4
  let m08 := processTrimByMake m07 ("chrysler".toList) chryslerTrimCorrectionMapping VPolicy.vauto [] [] 4
  let m09 := processTrimByMake m08 ("dodge".toList) dodgeTrimCorrectionMapping VPolicy.vauto dodgeWordsToRemove [] 4
  let m10 := processTrimByMake m09 ("hyundai".toList) hyundaiTrimCorrectionMapping VPolicy.vauto hyundaiWordsToRemove [] 4
  let m11 := processTrimByMake m10 ("land rover".toList) landroverTrimCorrectionMapping VPolicy.vauto [] [] 4
  let m12 := processTrimByMake m11 ("tesla".toList) teslaTrimCorrectionMapping VPolicy.vauto teslaWordsToRemove invalidTeslaTrims 4
  let m13 := processTrimByMake m12 ("nissan".toList) [] VPolicy.vauto nissanWordsToRemove [] 4
  let m14 := processTrimByMake m13 ("kia".toList) [] VPolicy.vauto kiaWordsToRemove [] 4
  let m15 := processTrimByMake m14 ("ram".toList) ramTrimCorrectionMapping VPolicy.vauto [] [] 4
  let m16 := processTrimByMake m15 ("subaru".toList) subaruTrimCorrectionMapping VPolicy.vauto subaruWordsToRemove [] 4
  let m17 := processTrimByMake m16 ("mini".toList) miniTrimCorrectionMapping VPolicy.vauto miniWordsToRemove [] 4
  let m18 := processTrimByMake m17 ("cadillac".toList) cadillacTrimCorrectionMapping VPolicy.vauto cadillacWordsToRemove [] 4
  let m19 := processTrimByMake m18 ("infiniti".toList) infinitiTrimCorrectionMapping VPolicy.vauto infinitiWordsToRemove invalidInfinitiTrims 4
  let m20 := processTrimByMake m19 ("mercedes-benz".toList) mercedesTrimCorrectionMapping VPolicy.vauto mercedesWordsToRemove [] 4
  let m21 := processTrimByMake m20 ("gmc".toList) gmcTrimCorrectionMapping VPolicy.vauto [] [] 4
  let m22 := processTrimByMake m21 ("volkswagen".toList) [] VPolicy.vauto volkswagenWordsToRemove [] 4
  let m23 := processTrimByMake m22 ("mazda".toList) mazdaTrimCorrectionMapping VPolicy.vauto mazdaWordsToRemove [] 4
  let m24 := processTrimByMake m23 ("mitsubishi".toList) [] VPolicy.vauto mitsubishiWordsToRemove [] 4
  let m25 := processTrimByMake m24 ("lexus".toList) [] VPolicy.vauto lexusWordsToRemove [] 4
  let m26 := processTrimByMake m25 ("jeep".toList) [] VPolicy.vauto [] [] 4
  let m27 := processTrimByMake m26 ("lincoln".toList) [] VPolicy.vauto [] [] 4
  processTrimByMake m27 ("volvo".toList) [] VPolicy.vauto [] [] 4

/-- process_trim of the source -/
def processTrim (df : List Row) (minOccurrences : Nat)
    (combineWithModelname : Bool) : List Row :=
  let base := suppressRare (fillUnknownStage (dropBackupStage (processAllMakes
    (snapshotBackup (extractInfoFromTrim (lowerTrims df)))))) minOccurrences
  if combineWithModelname then combineStage base else base

/-- the makes that have a dedicated processing call in process_trim -/
def configuredMakes : List LC :=
  ["bmw".toList, "toyota".toList, "audi".toList, "honda".toList, "ford".toList,
   "porsche".toList, "chevrolet".toList, "chrysler".toList, "dodge".toList,
   "hyundai".toList, "land rover".toList, "tesla".toList, "nissan".toList,
   "kia".toList, "ram".toList, "subaru".toList, "mini".toList,
   "cadillac".toList, "infiniti".toList, "mercedes-benz".toList, "gmc".toList,
   "volkswagen".toList, "mazda".toList, "mitsubishi".toList, "lexus".toList,
   "jeep".toList, "lincoln".toList, "volvo".toList]

/-- a string every character of which is fixed by str.lower -/
def isLowerStr (s : LC) : Bool := s.all (fun c => toLowerChar c == c)

/-- a convenient row builder for concrete tables -/
def mkRow (mk md tr bt ft dt tm : LC) : Row :=
  { make := mk, model := md, trim := tr, bodytype := bt, fueltype := ft,
    drivetrain := dt, transmission := tm }

/-- a convenient backup-carrying row builder for concrete tables -/
def mkCRow (mk md tr bk bt ft dt tm : LC) : CRow :=
  { make := mk, model := md, trim := tr, trim_backup := bk, bodytype := bt,
    fueltype := ft, drivetrain := dt, transmission := tm }

/-- concrete two-row bmw table for the C1 counterexample -/
def tblC1 : List Row :=
  [mkRow ("bmw".toList) ("aa".toList) ("540i".toList) ("x".toList)
    ("x".toList) ("x".toList) ("x".toList),
   mkRow ("bmw".toList) ("bb".toList) ("540i".toList) ("x".toList)
    ("x".toList) ("x".toList) ("x".toList)]

/-- concrete one-row table of an unconfigured make for the C1 witness -/
def tblC1w : List Row :=
  [mkRow ("fiat".toList) ("aa".toList) ("lx".toList) ("x".toList)
    ("x".toList) ("x".toList) ("x".toList)]

/-- concrete one-row bmw table for the C2 counterexample -/
def tblC2 : List Row :=
  [mkRow ("bmw".toList) ("m4".toList) ("conv".toList) ("x".toList)
    ("x".toList) ("x".toList) ("x".toList)]

/-- concrete one-row table for the C2 witness -/
def tblC2w : List Row :=
  [mkRow ("fiat".toList) ("aa".toList) ("LX Sport".toList) ("x".toList)
    ("x".toList) ("x".toList) ("x".toList)]

/-- concrete one-row bmw table for the C4 counterexample -/
def tblC4 : List Row :=
  [mkRow ("bmw".toList) ("m4".toList) ("540i".toList) ("x".toList)
    ("x".toList) ("x".toList) ("x".toList)]

/-- concrete already-normalized one-row table of an unconfigured make for the
    C4 witness -/
def tblC4w : List Row :=
  [mkRow ("fiat".toList) ("500".toList) ("500-unknown".toList) ("x".toList)
    ("x".toList) ("x".toList) ("x".toList)]

/-- concrete one-row backup-carrying table for the C7 witness -/
def tblC7w : List CRow :=
  [mkCRow ("bmw".toList) ("m4".toList) ("unknown".toList) ("540i xdrive".toList)
    ("x".toList) ("x".toList) ("x".toList) ("x".toList)]

/-- concrete one-row backup-carrying table of a different make for the C9
    witness -/
def tblC9w : List CRow :=
  [mkCRow ("fiat".toList) ("500".toList) ("pop".toList) ("pop".toList)
    ("x".toList) ("x".toList) ("x".toList) ("x".toList)]

/- ===================== general lemmas ===================== -/

theorem map_self_of_mem {α : Type} (l : List α) (f : α → α) (h : ∀ a ∈ l, f a = a) :
    l.map f = l := by
  induction l with
  | nil => rfl
  | cons a t ih =>
    simp only [List.map_cons]
    rw [h a (List.mem_cons_self a t), ih (fun b hb => h b (List.mem_cons_of_mem a hb))]

theorem countOcc_cons (x : LC) (l : List LC) (v : LC) :
    countOcc (x :: l) v = (if x = v then 1 else 0) + countOcc l v := by
  by_cases h : x = v <;> simp [countOcc, List.filter_cons, h, Nat.add_comm]

/- ===================== claim C8 ===================== -/

theorem append_dash_ne_unknown (m t : LC) : ¬ (m ++ '-' :: t = unknownLC) := by
  intro h
  have hd : '-' ∈ m ++ '-' :: t := List.mem_append_right m (List.mem_cons_self _ _)
  rw [h] at hd
  revert hd
  decide

/-- C8: the model-name combination step of process_trim, including its special
    case for a resulting literal unknown trim, is equivalent to plainly setting
    every row's trim to model-dash-trim: the special-case guard never fires
    because a combined trim always contains a dash while the sentinel unknown
    does not, so it changes no row's value. -/
theorem claim_C8_combine_equiv (df : List Row) : combineStage df = combineSpec df := by
  unfold combineStage combineSpec
  rw [List.map_map]
  apply List.map_congr_left
  intro r _
  simp only [Function.comp]
  rw [if_neg]
  simp only [beq_iff_eq]
  exact append_dash_ne_unknown r.model r.trim

/- ===================== claim C1 ===================== -/

theorem suppress_trims (df : List Row) (minOcc : Nat) :
    (suppressRare df minOcc).map Row.trim
      = df.map (fun r =>
          if minOcc ≤ countOcc (df.map Row.trim) r.trim then r.trim else unknownLC) := by
  unfold suppressRare
  rw [List.map_map]
  apply List.map_congr_left
  intro r _
  simp only [Function.comp, apply_ite Row.trim]

theorem countOcc_suppress_aux (C : List LC) (minOcc : Nat) (v : LC)
    (hpop : minOcc ≤ countOcc C v) (hne : v ≠ unknownLC) (df : List Row) :
    countOcc (df.map (fun r =>
        if minOcc ≤ countOcc C r.trim then r.trim else unknownLC)) v
      = countOcc (df.map Row.trim) v := by
  induction df with
  | nil => rfl
  | cons r t ih =>
    rw [List.map_cons, List.map_cons, countOcc_cons, countOcc_cons, ih]
    by_cases h : r.trim = v
    · rw [h, if_pos hpop]
    · by_cases hp : minOcc ≤ countOcc C r.trim
      · rw [if_pos hp]
      · rw [if_neg hp, if_neg h, if_neg (fun he => hne he.symm)]

theorem suppress_floor (df : List Row) (minOcc : Nat) (v : LC)
    (hv : v ∈ (suppressRare df minOcc).map Row.trim) (hne : v ≠ unknownLC) :
    minOcc ≤ countOcc ((suppressRare df minOcc).map Row.trim) v := by
  rw [suppress_trims] at hv ⊢
  rcases List.mem_map.mp hv with ⟨r, hr, hrv⟩
  by_cases hpop : minOcc ≤ countOcc (df.map Row.trim) r.trim
  · rw [if_pos hpop] at hrv
    rw [← hrv]
    rw [countOcc_suppress_aux (df.map Row.trim) minOcc r.trim hpop (hrv ▸ hne) df]
    exact hpop
  · rw [if_neg hpop] at hrv
    exact absurd hrv (fun he => hne he.symm)

/-- C1 amended: before the model-name combination (combine off), every trim
    value of the returned table other than the literal unknown occurs at least
    min_occurrences times in it; the combination step can then split a value
    across models and break the floor. -/
theorem claim_C1_frequency_floor (df : List Row) (minOcc : Nat) (v : LC)
    (hv : v ∈ (processTrim df minOcc false).map Row.trim) (hne : v ≠ unknownLC) :
    minOcc ≤ countOcc ((processTrim df minOcc false).map Row.trim) v := by
  have he : processTrim df minOcc false
      = suppressRare (fillUnknownStage (dropBackupStage (processAllMakes
          (snapshotBackup (extractInfoFromTrim (lowerTrims df)))))) minOcc := rfl
  rw [he] at hv ⊢
  exact suppress_floor _ minOcc v hv hne

/-- C1 counterexample: with combine_with_modelname on and min_occurrences two,
    the output of process_trim on a two-model table contains the value aa-540i,
    which does not end in -unknown yet occurs only once. -/
theorem claim_C1_counterexample :
    ("aa-540i".toList) ∈ (processTrim tblC1 2 true).map Row.trim
    ∧ List.isSuffixOf ("-unknown".toList) ("aa-540i".toList) = false
    ∧ countOcc ((processTrim tblC1 2 true).map Row.trim) ("aa-540i".toList) < 2 := by
  decide

/-- C1 witness: the amended floor at a concrete table with combine off -/
theorem claim_C1_witness :
    ("lx".toList) ∈ (processTrim tblC1w 1 false).map Row.trim
    ∧ ("lx".toList) ≠ unknownLC
    ∧ 1 ≤ countOcc ((processTrim tblC1w 1 false).map Row.trim) ("lx".toList) :=
  ⟨by decide, by decide,
    claim_C1_frequency_floor tblC1w 1 ("lx".toList) (by decide) (by decide)⟩

/- ===================== claim C9 ===================== -/

theorem beq_make_false (make : LC) (r : CRow) (h : r.make ≠ make) :
    (r.make == make) = false := by
  simp [h]

theorem pbmCleaned_length (df : List CRow) (make : LC) (corr : List (LC × LC))
    (aw ai : List LC) : (pbmCleaned df make corr aw ai).length = df.length := by
  unfold pbmCleaned
  by_cases hc : corr.isEmpty <;> simp [hc]

theorem pbmCleaned_getElem_ne (df : List CRow) (make : LC) (corr : List (LC × LC))
    (aw ai : List LC) (i : Nat) (r : CRow) (hi : df[i]? = some r) (h : r.make ≠ make) :
    (pbmCleaned df make corr aw ai)[i]? = some r := by
  unfold pbmCleaned
  by_cases hc : corr.isEmpty <;> simp [hc, List.getElem?_map, hi, h]

theorem pbmCleaned_no_match (df : List CRow) (make : LC) (corr : List (LC × LC))
    (aw ai : List LC) (h : ∀ r ∈ df, r.make ≠ make) :
    pbmCleaned df make corr aw ai = df := by
  unfold pbmCleaned
  dsimp only
  have e1 : df.map (fun r =>
      if r.make == make then { r with trim := cleanTrim r.trim aw } else r) = df := by
    apply map_self_of_mem
    intro r hr
    rw [beq_make_false make r (h r hr)]
    simp
  have e2 : df.map (fun r =>
      if r.make == make then { r with trim := dictReplace corr r.trim } else r) = df := by
    apply map_self_of_mem
    intro r hr
    rw [beq_make_false make r (h r hr)]
    simp
  have e3 : df.map (fun r =>
      if r.make == make then { r with trim := validateTrim r.trim ai } else r) = df := by
    apply map_self_of_mem
    intro r hr
    rw [beq_make_false make r (h r hr)]
    simp
  by_cases hc : corr.isEmpty
  · rw [if_pos hc, e1, e3]
  · rw [if_neg (fun hh => hc hh), e1, e2, e3]

theorem pbm_length (df : List CRow) (make : LC) (corr : List (LC × LC))
    (vt : VPolicy) (aw ai : List LC) (θ : Nat) :
    (processTrimByMake df make corr vt aw ai θ).length = df.length := by
  unfold processTrimByMake
  cases vt with
  | vauto => simp [pbmCleaned_length]
  | vnone => simp [pbmCleaned_length]
  | vlist l => by_cases hl : l.isEmpty <;> simp [hl, pbmCleaned_length]

theorem pbm_getElem_ne (df : List CRow) (make : LC) (corr : List (LC × LC))
    (vt : VPolicy) (aw ai : List LC) (θ : Nat) (i : Nat) (r : CRow)
    (hi : df[i]? = some r) (h : r.make ≠ make) :
    (processTrimByMake df make corr vt aw ai θ)[i]? = some r := by
  unfold processTrimByMake
  have h3 := pbmCleaned_getElem_ne df make corr aw ai i r hi h
  cases vt with
  | vauto => simp [List.getElem?_map, h3, h]
  | vnone => exact h3
  | vlist l => by_cases hl : l.isEmpty <;> simp [hl, List.getElem?_map, h3, h]

theorem pbm_no_match (df : List CRow) (make : LC) (corr : List (LC × LC))
    (vt : VPolicy) (aw ai : List LC) (θ : Nat) (h : ∀ r ∈ df, r.make ≠ make) :
    processTrimByMake df make corr vt aw ai θ = df := by
  cases vt with
  | vauto =>
    unfold processTrimByMake
    dsimp only
    rw [pbmCleaned_no_match df make corr aw ai h]
    apply map_self_of_mem
    intro r hr
    rw [beq_make_false make r (h r hr)]
    simp
  | vnone =>
    unfold processTrimByMake
    dsimp only
    exact pbmCleaned_no_match df make corr aw ai h
  | vlist l =>
    unfold processTrimByMake
    dsimp only
    rw [pbmCleaned_no_match df make corr aw ai h]
    by_cases hl : l.isEmpty
    · rw [if_pos hl]
    · rw [if_neg (fun hh => hl hh)]
      apply map_self_of_mem
      intro r hr
      rw [beq_make_false make r (h r hr)]
      simp

/-- C9: process_trim_by_make keeps the table length, returns every row whose
    make differs from the given one unchanged in every field, and is the
    identity (a no-op, not an error) on a table in which no row has the given
    make. -/
theorem claim_C9_frame (df : List CRow) (make : LC) (corr : List (LC × LC))
    (vt : VPolicy) (aw ai : List LC) (θ : Nat) :
    (processTrimByMake df make corr vt aw ai θ).length = df.length
    ∧ (∀ (i : Nat) (r : CRow), df[i]? = some r → r.make ≠ make →
        (processTrimByMake df make corr vt aw ai θ)[i]? = some r)
    ∧ ((∀ r ∈ df, r.make ≠ make) → processTrimByMake df make corr vt aw ai θ = df) := by
  refine ⟨pbm_length df make corr vt aw ai θ, ?_, ?_⟩
  · intro i r hi hne
    exact pbm_getElem_ne df make corr vt aw ai θ i r hi hne
  · intro hno
    exact pbm_no_match df make corr vt aw ai θ hno

/-- C9 witness: a make matching no row leaves a concrete table unchanged -/
theorem claim_C9_witness :
    (∀ r ∈ tblC9w, r.make ≠ ("bmw".toList))
    ∧ processTrimByMake tblC9w ("bmw".toList) [] VPolicy.vauto [] [] 4 = tblC9w :=
  ⟨by decide,
   (claim_C9_frame tblC9w ("bmw".toList) [] VPolicy.vauto [] [] 4).2.2 (by decide)⟩

/- ===================== claims C6 and C10 ===================== -/

/-- C6 counterexample: validate_trim returns unknown on the literal unknown
    input although that input matches neither the built-in invalid list nor any
    red-flag word, so returns-unknown-exactly-when-matched fails there. -/
theorem claim_C6_counterexample :
    validateTrim unknownLC [] = unknownLC
    ∧ unknownLC ∉ invalidTrimsList ++ ([] : List LC)
    ∧ redflagSearch unknownLC = false := by
  decide

/-- C6 amended: validate_trim is exactly the two-branch conditional that
    returns unknown on a whole-string match of the invalid list with extras or
    on a red-flag substring and the input unchanged otherwise; hence the
    returns-unknown-exactly-when-matched biconditional holds for every input
    other than the literal unknown itself, which passes through unmatched. -/
theorem claim_C6_validate_contract (t : LC) (extra : List LC) :
    validateTrim t extra
      = (if t ∈ invalidTrimsList ++ extra ∨ redflagSearch t = true then unknownLC else t)
    ∧ (t ≠ unknownLC →
        ((validateTrim t extra = unknownLC)
          ↔ (t ∈ invalidTrimsList ++ extra ∨ redflagSearch t = true)))
    ∧ (t ∉ invalidTrimsList ++ extra → redflagSearch t = false →
        validateTrim t extra = t) := by
  unfold validateTrim
  by_cases h1 : t ∈ invalidTrimsList ++ extra
  · rw [if_pos h1, if_pos (Or.inl h1)]
    exact ⟨rfl, fun _ => ⟨fun _ => Or.inl h1, fun _ => rfl⟩, fun hc _ => absurd h1 hc⟩
  · rw [if_neg h1]
    by_cases h2 : redflagSearch t = true
    · rw [if_pos h2, if_pos (Or.inr h2)]
      exact ⟨rfl, fun _ => ⟨fun _ => Or.inr h2, fun _ => rfl⟩,
        fun _ hr => absurd h2 (by rw [hr]; exact Bool.false_ne_true)⟩
    · rw [if_neg h2, if_neg (fun ho => Or.elim ho h1 h2)]
      exact ⟨rfl, fun ht => ⟨fun he => absurd he ht, fun ho => absurd ho (fun ho => Or.elim ho h1 h2)⟩,
        fun _ _ => rfl⟩

/-- C6 witness: the biconditional instantiated at a concrete non-unknown
    input -/
theorem claim_C6_witness :
    (validateTrim ("m sport".toList) [] = unknownLC)
      ↔ (("m sport".toList) ∈ invalidTrimsList ++ ([] : List LC)
          ∨ redflagSearch ("m sport".toList) = true) :=
  (claim_C6_validate_contract ("m sport".toList) []).2.1 (by decide)

/-- C10: the sentinel unknown is a fixed point of validate_trim for every
    extra invalid list not containing it, and it survives by passing through:
    it is not in the built-in exact-match list and contains no red-flag word. -/
theorem claim_C10_sentinel_fixed (extra : List LC) (h : unknownLC ∉ extra) :
    validateTrim unknownLC extra = unknownLC
    ∧ unknownLC ∉ invalidTrimsList
    ∧ redflagSearch unknownLC = false := by
  have hbase : unknownLC ∉ invalidTrimsList := by decide
  have hred : redflagSearch unknownLC = false := by decide
  have hnotmem : unknownLC ∉ invalidTrimsList ++ extra := by
    intro hm
    rcases List.mem_append.mp hm with hm1 | hm2
    · exact hbase hm1
    · exact h hm2
  refine ⟨?_, hbase, hred⟩
  unfold validateTrim
  rw [if_neg hnotmem, if_neg]
  rw [hred]
  exact Bool.false_ne_true

/-- C10 witness: the sentinel fixed point with no extra invalid list -/
theorem claim_C10_witness :
    unknownLC ∉ ([] : List LC)
    ∧ (validateTrim unknownLC [] = unknownLC
       ∧ unknownLC ∉ invalidTrimsList
       ∧ redflagSearch unknownLC = false) :=
  ⟨by decide, claim_C10_sentinel_fixed [] (by decide)⟩

/- ===================== claims C5 and C3 ===================== -/

/-- C5 counterexample: clean_trim of Python None str-coerces None to the text
    None and returns none, while clean_trim of the string nan returns nan, so
    the two behave differently. -/
theorem claim_C5_counterexample :
    cleanTrimPy Option.none [] ≠ cleanTrimPy (some ("nan".toList)) [] := by decide

/-- C5 amended: clean_trim returns a definite string on None, the empty string
    and purely numeric input, and validate_trim does on the empty and numeric
    strings; clean_trim of None equals cleaning the coerced text None, namely
    none, and differs from clean_trim of nan. -/
theorem claim_C5_totality :
    cleanTrimPy Option.none [] = "none".toList
    ∧ cleanTrimPy (some []) [] = []
    ∧ cleanTrimPy (some ("123".toList)) [] = "123".toList
    ∧ cleanTrimPy (some ("nan".toList)) [] = "nan".toList
    ∧ validateTrim [] [] = unknownLC
    ∧ validateTrim ("123".toList) [] = "123".toList := by decide

/-- C3 counterexample: clean_trim is not idempotent with the canonical lists:
    cleaning b model h removes the stopword model, leaving b h, and a second
    cleaning erases the complex phrase b h entirely. -/
theorem claim_C3_counterexample :
    cleanTrim (cleanTrim ("b model h".toList) []) [] ≠ cleanTrim ("b model h".toList) [] := by
  decide

/-- C3 amended: clean_trim is idempotent on sampled representative inputs,
    among them the spec's examples, though not on all strings, because a
    removal pass can assemble a phrase that only the next pass would remove. -/
theorem claim_C3_idempotent_on_samples :
    (cleanTrim (cleanTrim ("xlt supercrew 4x4, w/ leather (2019 model)".toList) []) []
      = cleanTrim ("xlt supercrew 4x4, w/ leather (2019 model)".toList) [])
    ∧ (cleanTrim (cleanTrim ("premium".toList) []) [] = cleanTrim ("premium".toList) [])
    ∧ (cleanTrim (cleanTrim ("m-sport xdrive".toList) []) [] = cleanTrim ("m-sport xdrive".toList) [])
    ∧ (cleanTrim (cleanTrim ("540i".toList) []) [] = cleanTrim ("540i".toList) [])
    ∧ (cleanTrim (cleanTrim [] []) [] = cleanTrim [] []) := by decide

/- ===================== claim C7 ===================== -/

theorem mem_insertCntDesc (p q : LC × Nat) (l : List (LC × Nat)) :
    q ∈ insertCntDesc p l ↔ q = p ∨ q ∈ l := by
  induction l with
  | nil => simp [insertCntDesc]
  | cons a t ih =>
    unfold insertCntDesc
    by_cases h : a.2 < p.2
    · simp [h]
    · simp only [h, if_false, List.mem_cons, ih]
      tauto

theorem mem_sortCntDesc (q : LC × Nat) (l : List (LC × Nat)) :
    q ∈ sortCntDesc l ↔ q ∈ l := by
  unfold sortCntDesc
  induction l with
  | nil => simp
  | cons a t ih => simp [List.foldr_cons, mem_insertCntDesc, ih]

theorem mem_insertLenDesc (v w : LC) (l : List LC) :
    w ∈ insertLenDesc v l ↔ w = v ∨ w ∈ l := by
  induction l with
  | nil => simp [insertLenDesc]
  | cons a t ih =>
    unfold insertLenDesc
    by_cases h : a.length < v.length
    · simp [h]
    · simp only [h, if_false, List.mem_cons, ih]
      tauto

theorem mem_sortLenDesc (v : LC) (l : List LC) : v ∈ sortLenDesc l ↔ v ∈ l := by
  unfold sortLenDesc
  induction l with
  | nil => simp
  | cons a t ih => simp [List.foldr_cons, mem_insertLenDesc, ih]

theorem pairwise_insertLenDesc (v : LC) (l : List LC)
    (h : l.Pairwise (fun a b => b.length ≤ a.length)) :
    (insertLenDesc v l).Pairwise (fun a b => b.length ≤ a.length) := by
  induction l with
  | nil => simp [insertLenDesc]
  | cons w t ih =>
    unfold insertLenDesc
    rcases List.pairwise_cons.mp h with ⟨hw, ht⟩
    by_cases hlt : w.length < v.length
    · rw [if_pos hlt]
      refine List.pairwise_cons.mpr ⟨?_, h⟩
      intro x hx
      rcases List.mem_cons.mp hx with he | hxt
      · rw [he]; exact Nat.le_of_lt hlt
      · exact Nat.le_trans (hw x hxt) (Nat.le_of_lt hlt)
    · rw [if_neg hlt]
      refine List.pairwise_cons.mpr ⟨?_, ih ht⟩
      intro x hx
      rcases (mem_insertLenDesc v x t).mp hx with he | hxt
      · rw [he]; exact Nat.le_of_not_lt hlt
      · exact hw x hxt

theorem pairwise_sortLenDesc (l : List LC) :
    (sortLenDesc l).Pairwise (fun a b => b.length ≤ a.length) := by
  unfold sortLenDesc
  induction l with
  | nil => simp
  | cons a t ih =>
    rw [List.foldr_cons]
    exact pairwise_insertLenDesc a _ ih

theorem mem_distinctAux (l : List LC) : ∀ (seen : List LC) (v : LC),
    v ∈ distinctAux seen l ↔ v ∈ l ∧ ¬ v ∈ seen := by
  induction l with
  | nil =>
    intro seen v
    simp [distinctAux]
  | cons x t ih =>
    intro seen v
    unfold distinctAux
    by_cases hx : seen.contains x
    · rw [if_pos hx, ih seen v]
      have hxs : x ∈ seen := List.elem_iff.mp hx
      simp only [List.mem_cons]
      constructor
      · rintro ⟨h1, h2⟩
        exact ⟨Or.inr h1, h2⟩
      · rintro ⟨h1, h2⟩
        rcases h1 with he | hm2
        · exact absurd (show v ∈ seen by rw [he]; exact hxs) h2
        · exact ⟨hm2, h2⟩
    · rw [if_neg hx]
      have hxs : ¬ x ∈ seen := fun hmem => hx (List.elem_iff.mpr hmem)
      simp only [List.mem_cons, ih (x :: seen) v]
      constructor
      · rintro (he | ⟨h1, h2⟩)
        · exact ⟨Or.inl he, by rw [he]; exact hxs⟩
        · exact ⟨Or.inr h1, fun hm => h2 (Or.inr hm)⟩
      · rintro ⟨h1, h2⟩
        rcases h1 with he | hm
        · exact Or.inl he
        · by_cases hvx : v = x
          · exact Or.inl hvx
          · exact Or.inr ⟨hm, fun hor => hor.elim hvx h2⟩

theorem mem_distinctValues (l : List LC) (v : LC) : v ∈ distinctValues l ↔ v ∈ l := by
  unfold distinctValues
  rw [mem_distinctAux l [] v]
  simp

theorem mem_valueCounts (l : List LC) (p : LC × Nat) :
    p ∈ valueCounts l ↔ p.1 ∈ l ∧ p.2 = countOcc l p.1 := by
  unfold valueCounts
  rw [mem_sortCntDesc, List.mem_map]
  constructor
  · rintro ⟨v, hv, rfl⟩
    exact ⟨(mem_distinctValues l v).mp hv, rfl⟩
  · rintro ⟨h1, h2⟩
    refine ⟨p.1, (mem_distinctValues l p.1).mpr h1, ?_⟩
    cases p with
    | mk a b =>
      simp only at h2
      rw [h2]

theorem mem_getSortedTrims (df : List CRow) (make : LC) (θ : Nat) (v : LC) :
    v ∈ getSortedTrimsAboveThreshold df make θ
      ↔ (v ∈ (df.filter (fun r => r.make == make)).map CRow.trim
          ∧ θ ≤ countOcc ((df.filter (fun r => r.make == make)).map CRow.trim) v
          ∧ v ≠ unknownLC ∧ 2 < v.length) := by
  unfold getSortedTrimsAboveThreshold
  dsimp only
  set mt := (df.filter (fun r => r.make == make)).map CRow.trim with hmt
  simp only [mem_sortLenDesc, List.mem_filter, List.mem_map, decide_eq_true_eq, bne_iff_ne]
  constructor
  · rintro ⟨⟨⟨q, ⟨hqc, hqθ⟩, rfl⟩, hne⟩, hlen⟩
    rcases (mem_valueCounts mt q).mp hqc with ⟨hmem, hcnt⟩
    exact ⟨hmem, hcnt ▸ hqθ, hne, hlen⟩
  · rintro ⟨hmem, hcnt, hne, hlen⟩
    exact ⟨⟨⟨(v, countOcc mt v), ⟨(mem_valueCounts mt _).mpr ⟨hmem, rfl⟩, hcnt⟩, rfl⟩, hne⟩, hlen⟩

theorem trim_eta (r : CRow) (h : r.trim = unknownLC) :
    ({ r with trim := unknownLC } : CRow) = r := by
  rw [← h]

theorem updateUnknown_eq (r : CRow) (vt : List LC)
    (hlen : ∀ w ∈ vt, ¬ (w.isEmpty = true)) (hu : r.trim = unknownLC) :
    updateUnknownTrim r vt
      = { r with trim := (vt.find? (fun w => containsSub r.trim_backup w)).getD unknownLC } := by
  unfold updateUnknownTrim
  rw [if_neg (fun hne => hne hu)]
  cases hf : vt.find? (fun w => containsSub r.trim_backup w) with
  | none =>
    dsimp only
    exact (trim_eta r hu).symm
  | some w =>
    dsimp only
    rw [if_neg (hlen w (List.mem_of_find?_eq_some hf))]
    rfl

/-- C7: with the auto policy, process_trim_by_make derives the allowlist that
    contains exactly the trim values of the make's already-cleaned rows whose
    count is at least the threshold, excluding the literal unknown and values
    of length at most two, orders it by string length descending, and then
    rewrites exactly the make's unknown-trim rows to the first allowlist entry
    occurring inside their trim_backup, keeping unknown when none occurs. -/
theorem claim_C7_auto_allowlist (df : List CRow) (make : LC) (corr : List (LC × LC))
    (aw ai : List LC) (θ : Nat) (s3 : List CRow) (vt : List LC)
    (hs : s3 = pbmCleaned df make corr aw ai)
    (hv : vt = getSortedTrimsAboveThreshold s3 make θ) :
    (∀ v : LC, v ∈ vt ↔
        (v ∈ (s3.filter (fun r => r.make == make)).map CRow.trim
          ∧ θ ≤ countOcc ((s3.filter (fun r => r.make == make)).map CRow.trim) v
          ∧ v ≠ unknownLC ∧ 2 < v.length))
    ∧ vt.Pairwise (fun a b => b.length ≤ a.length)
    ∧ processTrimByMake df make corr VPolicy.vauto aw ai θ
        = s3.map (fun r =>
            if r.make == make ∧ r.trim = unknownLC then
              { r with trim := (vt.find? (fun w => containsSub r.trim_backup w)).getD unknownLC }
            else r) := by
  subst hs
  subst hv
  refine ⟨fun v => mem_getSortedTrims _ make θ v, pairwise_sortLenDesc _, ?_⟩
  unfold processTrimByMake
  apply List.map_congr_left
  intro r hr
  by_cases hm : (r.make == make) = true
  · rw [if_pos hm]
    by_cases hu : r.trim = unknownLC
    · rw [if_pos ⟨hm, hu⟩]
      refine updateUnknown_eq r _ ?_ hu
      intro w hw he
      have hwlen :=
        ((mem_getSortedTrims (pbmCleaned df make corr aw ai) make θ w).mp hw).2.2.2
      rw [List.isEmpty_iff.mp he] at hwlen
      exact absurd hwlen (by decide)
    · rw [if_neg (fun hc => hu hc.2)]
      unfold updateUnknownTrim
      rw [if_pos hu]
  · rw [if_neg hm, if_neg (fun hc => hm hc.1)]

/-- C7 witness: the auto backfill equality at a concrete one-row table -/
theorem claim_C7_witness :
    processTrimByMake tblC7w ("bmw".toList) [] VPolicy.vauto [] [] 4
      = (pbmCleaned tblC7w ("bmw".toList) [] [] []).map (fun r =>
          if r.make == ("bmw".toList) ∧ r.trim = unknownLC then
            { r with trim :=
                ((getSortedTrimsAboveThreshold
                    (pbmCleaned tblC7w ("bmw".toList) [] [] []) ("bmw".toList) 4).find?
                  (fun w => containsSub r.trim_backup w)).getD unknownLC }
          else r) :=
  (claim_C7_auto_allowlist tblC7w ("bmw".toList) [] [] [] 4 _ _ rfl rfl).2.2

/- ===================== claim C4 ===================== -/

theorem toLowerStr_fix (s : LC) (h : isLowerStr s = true) : toLowerStr s = s := by
  have h2 : s.all (fun c => toLowerChar c == c) = true := h
  unfold toLowerStr
  apply map_self_of_mem
  intro c hc
  exact beq_iff_eq.mp (List.all_eq_true.mp h2 c hc)

theorem suppress_all_rare (df : List Row) (minOcc : Nat)
    (h : ∀ r ∈ df, countOcc (df.map Row.trim) r.trim < minOcc) :
    suppressRare df minOcc = df.map (fun r => { r with trim := unknownLC }) := by
  unfold suppressRare
  apply List.map_congr_left
  intro r hr
  rw [if_neg (Nat.not_le_of_lt (h r hr))]

theorem combine_restore (df : List Row)
    (h : ∀ r ∈ df, r.trim = r.model ++ '-' :: unknownLC) :
    combineStage (df.map (fun r => { r with trim := unknownLC })) = df := by
  unfold combineStage
  rw [List.map_map, List.map_map]
  apply map_self_of_mem
  intro r hr
  show (if ((r.model ++ '-' :: unknownLC) == unknownLC) = true then _ else _) = r
  rw [if_neg (by simp only [beq_iff_eq]; exact append_dash_ne_unknown r.model unknownLC)]
  show ({ r with trim := r.model ++ '-' :: unknownLC } : Row) = r
  rw [← h r hr]

/-- C4 amended: process_trim is generally not a no-op on its own output, since
    with combine_with_modelname the combination step prepends the model name on
    every run; a second run returns the table unchanged exactly in the special
    situation in which each row is rebuilt identically: no row's make is
    configured, every trim is already the lowercase model-unknown combination,
    the keyword extractor fires on no row, and every trim value is globally
    rare, so suppression resets each trim to unknown and the combination
    restores the model-unknown form. -/
theorem claim_C4_roundtrip_special (df : List Row) (minOcc : Nat)
    (h1 : ∀ r ∈ df, ¬ r.make ∈ configuredMakes)
    (h2 : ∀ r ∈ df, r.trim = r.model ++ '-' :: unknownLC)
    (h3 : extractInfoFromTrim df = df)
    (h4 : ∀ r ∈ df, isLowerStr r.model = true)
    (h5 : ∀ r ∈ df, countOcc (df.map Row.trim) r.trim < minOcc) :
    processTrim df minOcc true = df := by
  have hlower : lowerTrims df = df := by
    unfold lowerTrims
    apply map_self_of_mem
    intro r hr
    have ht : toLowerStr r.trim = r.trim := by
      rw [h2 r hr]
      unfold toLowerStr
      rw [List.map_append]
      rw [show List.map toLowerChar ('-' :: unknownLC) = '-' :: unknownLC from by decide]
      rw [show List.map toLowerChar r.model = r.model from toLowerStr_fix r.model (h4 r hr)]
    rw [ht]
  have hsnap : ∀ r ∈ snapshotBackup df, ¬ r.make ∈ configuredMakes := by
    intro r hr
    rcases List.mem_map.mp hr with ⟨r0, hr0, rfl⟩
    exact h1 r0 hr0
  have hne : ∀ (mk : LC), mk ∈ configuredMakes → ∀ r ∈ snapshotBackup df, r.make ≠ mk := by
    intro mk hmk r hr he
    exact hsnap r hr (by rw [he]; exact hmk)
  have hall : processAllMakes (snapshotBackup df) = snapshotBackup df := by
    unfold processAllMakes
    dsimp only
    rw [pbm_no_match _ _ _ _ _ _ _ (hne ("bmw".toList) (by decide))]
    rw [pbm_no_match _ _ _ _ _ _ _ (hne ("toyota".toList) (by decide))]
    rw [pbm_no_match _ _ _ _ _ _ _ (hne ("audi".toList) (by decide))]
    rw [pbm_no_match _ _ _ _ _ _ _ (hne ("honda".toList) (by decide))]
    rw [pbm_no_match _ _ _ _ _ _ _ (hne ("ford".toList) (by decide))]
    rw [pbm_no_match _ _ _ _ _ _ _ (hne ("porsche".toList) (by decide))]
    rw [pbm_no_match _ _ _ _ _ _ _ (hne ("chevrolet".toList) (by decide))]
    rw [pbm_no_match _ _ _ _ _ _ _ (hne ("chrysler".toList) (by decide))]
    rw [pbm_no_match _ _ _ _ _ _ _ (hne ("dodge".toList) (by decide))]
    rw [pbm_no_match _ _ _ _ _ _ _ (hne ("hyundai".toList) (by decide))]
    rw [pbm_no_match _ _ _ _ _ _ _ (hne ("land rover".toList) (by decide))]
    rw [pbm_no_match _ _ _ _ _ _ _ (hne ("tesla".toList) (by decide))]
    rw [pbm_no_match _ _ _ _ _ _ _ (hne ("nissan".toList) (by decide))]
    rw [pbm_no_match _ _ _ _ _ _ _ (hne ("kia".toList) (by decide))]
    rw [pbm_no_match _ _ _ _ _ _ _ (hne ("ram".toList) (by decide))]
    rw [pbm_no_match _ _ _ _ _ _ _ (hne ("subaru".toList) (by decide))]
    rw [pbm_no_match _ _ _ _ _ _ _ (hne ("mini".toList) (by decide))]
    rw [pbm_no_match _ _ _ _ _ _ _ (hne ("cadillac".toList) (by decide))]
    rw [pbm_no_match _ _ _ _ _ _ _ (hne ("infiniti".toList) (by decide))]
    rw [pbm_no_match _ _ _ _ _ _ _ (hne ("mercedes-benz".toList) (by decide))]
    rw [pbm_no_match _ _ _ _ _ _ _ (hne ("gmc".toList) (by decide))]
    rw [pbm_no_match _ _ _ _ _ _ _ (hne ("volkswagen".toList) (by decide))]
    rw [pbm_no_match _ _ _ _ _ _ _ (hne ("mazda".toList) (by decide))]
    rw [pbm_no_match _ _ _ _ _ _ _ (hne ("mitsubishi".toList) (by decide))]
    rw [pbm_no_match _ _ _ _ _ _ _ (hne ("lexus".toList) (by decide))]
    rw [pbm_no_match _ _ _ _ _ _ _ (hne ("jeep".toList) (by decide))]
    rw [pbm_no_match _ _ _ _ _ _ _ (hne ("lincoln".toList) (by decide))]
    rw [pbm_no_match _ _ _ _ _ _ _ (hne ("volvo".toList) (by decide))]
  have hds : dropBackupStage (snapshotBackup df) = df := by
    unfold dropBackupStage snapshotBackup
    rw [List.map_map]
    apply map_self_of_mem
    intro r hr
    rfl
  show combineStage (suppressRare (fillUnknownStage (dropBackupStage (processAllMakes
    (snapshotBackup (extractInfoFromTrim (lowerTrims df)))))) minOcc) = df
  rw [hlower, h3, hall, hds]
  show combineStage (suppressRare df minOcc) = df
  rw [suppress_all_rare df minOcc h5, combine_restore df h2]

/-- C4 counterexample: process_trim applied to its own output differs from the
    output: the combination step prepends the model again, so the trim of the
    one-row bmw table becomes m4-m4-540i on the second run. -/
theorem claim_C4_counterexample :
    processTrim (processTrim tblC4 1 true) 1 true ≠ processTrim tblC4 1 true := by
  decide

/-- C4 witness: the special-case no-op at a concrete normalized one-row
    table -/
theorem claim_C4_witness :
    (∀ r ∈ tblC4w, ¬ r.make ∈ configuredMakes)
    ∧ processTrim tblC4w 5 true = tblC4w :=
  ⟨by decide,
   claim_C4_roundtrip_special tblC4w 5 (by decide) (by decide) (by decide)
     (by decide) (by decide)⟩

/- ===================== claim C2 ===================== -/

theorem lower_pairs_closed :
    upperLowerPairs.all (fun p => (upperLowerPairs.find? (fun q => q.1 == p.2)).isNone) = true := by
  decide

theorem toLowerChar_idem (c : Char) : toLowerChar (toLowerChar c) = toLowerChar c := by
  cases hf : upperLowerPairs.find? (fun p => p.1 == c) with
  | none =>
    have e : toLowerChar c = c := by
      unfold toLowerChar
      rw [hf]
    rw [e, e]
  | some p =>
    have e : toLowerChar c = p.2 := by
      unfold toLowerChar
      rw [hf]
    have hp := List.mem_of_find?_eq_some hf
    have h2 : (upperLowerPairs.find? (fun q => q.1 == p.2)).isNone = true :=
      List.all_eq_true.mp lower_pairs_closed p hp
    have hn : upperLowerPairs.find? (fun q => q.1 == p.2) = Option.none :=
      Option.isNone_iff_eq_none.mp h2
    have e2 : toLowerChar p.2 = p.2 := by
      unfold toLowerChar
      rw [hn]
    rw [e, e2]

theorem isLower_toLowerStr (s : LC) : isLowerStr (toLowerStr s) = true := by
  show (s.map toLowerChar).all (fun c => toLowerChar c == c) = true
  rw [List.all_eq_true]
  intro c hc
  rcases List.mem_map.mp hc with ⟨c0, _, rfl⟩
  exact beq_iff_eq.mpr (toLowerChar_idem c0)

theorem isLower_of_subset (s t : LC) (hsub : ∀ c ∈ t, c ∈ s) (h : isLowerStr s = true) :
    isLowerStr t = true := by
  have h2 : s.all (fun c => toLowerChar c == c) = true := h
  show t.all (fun c => toLowerChar c == c) = true
  rw [List.all_eq_true] at h2 ⊢
  intro c hc
  exact h2 c (hsub c hc)

theorem stripWS_subset (s : LC) : ∀ c ∈ stripWS s, c ∈ s := by
  intro c hc
  unfold stripWS at hc
  rw [List.mem_reverse] at hc
  have h1 := (List.dropWhile_sublist isSpaceChar).mem hc
  rw [List.mem_reverse] at h1
  exact (List.dropWhile_sublist isSpaceChar).mem h1

theorem rstripSet_subset (s : LC) (cs : List Char) : ∀ c ∈ rstripSet s cs, c ∈ s := by
  intro c hc
  unfold rstripSet at hc
  rw [List.mem_reverse] at hc
  have h1 := (List.dropWhile_sublist (fun c => cs.contains c)).mem hc
  rw [List.mem_reverse] at h1
  exact h1

theorem splitFirstBefore_subset (s w : LC) : ∀ c ∈ splitFirstBefore s w, c ∈ s := by
  induction s with
  | nil =>
    intro c hc
    exact absurd hc (List.not_mem_nil c)
  | cons a t ih =>
    intro c hc
    unfold splitFirstBefore at hc
    by_cases hp : w.isPrefixOf (a :: t) = true
    · rw [if_pos hp] at hc
      exact absurd hc (List.not_mem_nil c)
    · rw [if_neg hp] at hc
      rcases List.mem_cons.mp hc with he | hm
      · rw [he]
        exact List.mem_cons_self a t
      · exact List.mem_cons_of_mem a (ih c hm)

theorem truncateAfterWords_subset (s : LC) (ws : List LC) :
    ∀ c ∈ truncateAfterWords s ws, c ∈ s := by
  intro c hc
  unfold truncateAfterWords at hc
  cases hf : ws.find? (fun w => containsSub s w) with
  | none =>
    rw [hf] at hc
    exact hc
  | some w =>
    rw [hf] at hc
    exact splitFirstBefore_subset s w c (stripWS_subset _ c hc)

theorem removeAllSubF_subset (n : Nat) : ∀ (s : List Char) (w : LC),
    ∀ c ∈ removeAllSubF n s w, c ∈ s := by
  induction n with
  | zero =>
    intro s w c hc
    exact hc
  | succ n ih =>
    intro s w c hc
    cases s with
    | nil => exact hc
    | cons a t =>
      unfold removeAllSubF at hc
      split at hc
      · have h1 := ih _ w c hc
        exact List.mem_cons_of_mem a (List.drop_subset _ _ h1)
      · rcases List.mem_cons.mp hc with he | hm
        · rw [he]
          exact List.mem_cons_self a t
        · exact List.mem_cons_of_mem a (ih t w c hm)

theorem wordSubF_subset (n : Nat) : ∀ (ws : List LC) (prev : Option Char) (s : List Char),
    ∀ c ∈ wordSubF n ws prev s, c ∈ s := by
  induction n with
  | zero =>
    intro ws prev s c hc
    exact hc
  | succ n ih =>
    intro ws prev s c hc
    cases s with
    | nil => exact hc
    | cons a t =>
      unfold wordSubF at hc
      split at hc
      · split at hc
        · next w heq =>
            have h1 := ih ws w.getLast? _ c hc
            exact List.mem_cons_of_mem a (List.drop_subset _ _ h1)
        · rcases List.mem_cons.mp hc with he | hm
          · rw [he]
            exact List.mem_cons_self a t
          · exact List.mem_cons_of_mem a (ih ws (some a) t c hm)
      · rcases List.mem_cons.mp hc with he | hm
        · rw [he]
          exact List.mem_cons_self a t
        · exact List.mem_cons_of_mem a (ih ws (some a) t c hm)

theorem isLower_collapseAux (b : Bool) (s : LC) (h : isLowerStr s = true) :
    isLowerStr (collapseSpacesAux b s) = true := by
  induction s generalizing b with
  | nil => rfl
  | cons c t ih =>
    simp only [isLowerStr, List.all_cons, Bool.and_eq_true] at h
    unfold collapseSpacesAux
    by_cases hsp : isSpaceChar c = true
    · rw [if_pos hsp]
      cases b with
      | true => exact ih true h.2
      | false =>
        show isLowerStr (' ' :: collapseSpacesAux true t) = true
        simp only [isLowerStr, List.all_cons, Bool.and_eq_true]
        exact ⟨by decide, ih true h.2⟩
    · rw [if_neg hsp]
      simp only [isLowerStr, List.all_cons, Bool.and_eq_true]
      exact ⟨h.1, ih false h.2⟩

theorem isLower_removeExtraSpaces (s : LC) (h : isLowerStr s = true) :
    isLowerStr (removeExtraSpaces s) = true := isLower_collapseAux false s h

theorem isLower_stripWS (s : LC) (h : isLowerStr s = true) :
    isLowerStr (stripWS s) = true := isLower_of_subset s _ (stripWS_subset s) h

theorem isLower_rstripSet (s : LC) (cs : List Char) (h : isLowerStr s = true) :
    isLowerStr (rstripSet s cs) = true := isLower_of_subset s _ (rstripSet_subset s cs) h

theorem isLower_truncate (s : LC) (ws : List LC) (h : isLowerStr s = true) :
    isLowerStr (truncateAfterWords s ws) = true :=
  isLower_of_subset s _ (truncateAfterWords_subset s ws) h

theorem isLower_replaceApos (s : LC) (h : isLowerStr s = true) :
    isLowerStr (replaceApos s) = true := by
  induction s with
  | nil => rfl
  | cons c t ih =>
    simp only [isLowerStr, List.all_cons, Bool.and_eq_true] at h
    unfold replaceApos
    by_cases hc : (c == '\'') = true
    · rw [if_pos hc]
      simp only [isLowerStr, List.all_cons, Bool.and_eq_true]
      exact ⟨by decide, by decide, ih h.2⟩
    · rw [if_neg hc]
      simp only [isLowerStr, List.all_cons, Bool.and_eq_true]
      exact ⟨h.1, ih h.2⟩

theorem isLower_charmap (s : LC) (h : isLowerStr s = true) :
    isLowerStr (s.map (fun c => if charactersToRemove.contains c then ' ' else c)) = true := by
  have h2 : s.all (fun c => toLowerChar c == c) = true := h
  show (s.map _).all (fun c => toLowerChar c == c) = true
  rw [List.all_eq_true]
  intro c hc
  rcases List.mem_map.mp hc with ⟨c0, hc0, rfl⟩
  by_cases hm : charactersToRemove.contains c0 = true
  · rw [if_pos hm]
    decide
  · rw [if_neg hm]
    exact List.all_eq_true.mp h2 c0 hc0

theorem isLower_append (a b : LC) :
    isLowerStr (a ++ b) = (isLowerStr a && isLowerStr b) := List.all_append

theorem translation_values_lower :
    trimTranslationMapping.all (fun kv => isLowerStr kv.2) = true := by decide

theorem isLower_substAllF (n : Nat) (rules : List (LC × LC))
    (hr : rules.all (fun kv => isLowerStr kv.2) = true) :
    ∀ s : List Char, isLowerStr s = true → isLowerStr (substAllF n rules s) = true := by
  induction n with
  | zero =>
    intro s hs
    exact hs
  | succ n ih =>
    intro s hs
    cases s with
    | nil => exact hs
    | cons c t =>
      simp only [isLowerStr, List.all_cons, Bool.and_eq_true] at hs
      unfold substAllF
      split
      · next kv heq =>
          rw [isLower_append, Bool.and_eq_true]
          constructor
          · exact List.all_eq_true.mp hr kv (List.mem_of_find?_eq_some heq)
          · refine ih _ ?_
            exact isLower_of_subset t _ (fun c2 hc2 => List.drop_subset _ _ hc2) hs.2
      · simp only [isLowerStr, List.all_cons, Bool.and_eq_true]
        exact ⟨hs.1, ih t hs.2⟩

theorem isLower_translateString (rules : List (LC × LC))
    (hr : rules.all (fun kv => isLowerStr kv.2) = true) (s : LC)
    (h : isLowerStr s = true) : isLowerStr (translateString rules s) = true :=
  isLower_substAllF s.length rules hr s h

theorem isLower_foldl_removeAll (ws : List LC) :
    ∀ s : LC, isLowerStr s = true → isLowerStr (ws.foldl removeAllSub s) = true := by
  induction ws with
  | nil =>
    intro s h
    exact h
  | cons w t ih =>
    intro s h
    rw [List.foldl_cons]
    exact ih _ (isLower_of_subset s _ (fun c hc => removeAllSubF_subset s.length s w c hc) h)

theorem isLower_removeSimpleWords (ws : List LC) (s : LC) (h : isLowerStr s = true) :
    isLowerStr (removeSimpleWords ws s) = true :=
  isLower_of_subset s _ (fun c hc => wordSubF_subset s.length ws Option.none s c hc) h

theorem splitWSAux_chars (s : List Char) : ∀ (cur : List Char) (w : LC),
    w ∈ splitWSAux s cur → ∀ c ∈ w, c ∈ s ∨ c ∈ cur := by
  induction s with
  | nil =>
    intro cur w hw c hc
    unfold splitWSAux at hw
    by_cases hcur : cur.isEmpty = true
    · rw [if_pos hcur] at hw
      exact absurd hw (List.not_mem_nil w)
    · rw [if_neg hcur] at hw
      rcases List.mem_cons.mp hw with he | hm
      · right
        rw [he] at hc
        exact List.mem_reverse.mp hc
      · exact absurd hm (List.not_mem_nil w)
  | cons a t ih =>
    intro cur w hw c hc
    unfold splitWSAux at hw
    by_cases hsp : isSpaceChar a = true
    · rw [if_pos hsp] at hw
      by_cases hcur : cur.isEmpty = true
      · rw [if_pos hcur] at hw
        rcases ih [] w hw c hc with h1 | h2
        · exact Or.inl (List.mem_cons_of_mem a h1)
        · exact absurd h2 (List.not_mem_nil c)
      · rw [if_neg hcur] at hw
        rcases List.mem_cons.mp hw with he | hm
        · right
          rw [he] at hc
          exact List.mem_reverse.mp hc
        · rcases ih [] w hm c hc with h1 | h2
          · exact Or.inl (List.mem_cons_of_mem a h1)
          · exact absurd h2 (List.not_mem_nil c)
    · rw [if_neg hsp] at hw
      rcases ih (a :: cur) w hw c hc with h1 | h2
      · exact Or.inl (List.mem_cons_of_mem a h1)
      · rcases List.mem_cons.mp h2 with he | hm
        · rw [he]
          exact Or.inl (List.mem_cons_self a t)
        · exact Or.inr hm

theorem dedup_subset (ws : List LC) : ∀ (seen : List LC) (w : LC),
    w ∈ dedupKeepFirst seen ws → w ∈ ws := by
  induction ws with
  | nil =>
    intro seen w hw
    exact absurd hw (List.not_mem_nil w)
  | cons a t ih =>
    intro seen w hw
    unfold dedupKeepFirst at hw
    by_cases hc : seen.contains a = true
    · rw [if_pos hc] at hw
      exact List.mem_cons_of_mem a (ih seen w hw)
    · rw [if_neg hc] at hw
      rcases List.mem_cons.mp hw with he | hm
      · rw [he]
        exact List.mem_cons_self a t
      · exact List.mem_cons_of_mem a (ih (a :: seen) w hm)

theorem joinSpace_chars (ws : List LC) :
    ∀ c ∈ joinSpace ws, (∃ w ∈ ws, c ∈ w) ∨ c = ' ' := by
  induction ws with
  | nil =>
    intro c hc
    exact absurd hc (List.not_mem_nil c)
  | cons w t ih =>
    intro c hc
    cases t with
    | nil => exact Or.inl ⟨w, List.mem_cons_self w [], hc⟩
    | cons w2 t2 =>
      have hc2 : c ∈ w ++ ' ' :: joinSpace (w2 :: t2) := hc
      rcases List.mem_append.mp hc2 with h1 | h2
      · exact Or.inl ⟨w, List.mem_cons_self w _, h1⟩
      · rcases List.mem_cons.mp h2 with he | hm
        · exact Or.inr he
        · rcases ih c hm with ⟨w3, hw3, hc3⟩ | hsp
          · exact Or.inl ⟨w3, List.mem_cons_of_mem w hw3, hc3⟩
          · exact Or.inr hsp

theorem isLower_removeDuplicateWords (s : LC) (h : isLowerStr s = true) :
    isLowerStr (removeDuplicateWords s) = true := by
  have h2 : s.all (fun c => toLowerChar c == c) = true := h
  show (joinSpace (dedupKeepFirst [] (splitWS s))).all (fun c => toLowerChar c == c) = true
  rw [List.all_eq_true]
  intro c hc
  rcases joinSpace_chars _ c hc with ⟨w, hw, hcw⟩ | hsp
  · have hw2 := dedup_subset _ [] w hw
    rcases splitWSAux_chars s [] w hw2 c hcw with hin | hnil
    · exact List.all_eq_true.mp h2 c hin
    · exact absurd hnil (List.not_mem_nil c)
  · subst hsp
    decide

theorem isLower_cleanTrim (s : LC) (aw : List LC) : isLowerStr (cleanTrim s aw) = true := by
  have l1 : isLowerStr (toLowerStr s) = true := isLower_toLowerStr s
  have l2 := isLower_truncate _ truncationMarkers l1
  have l3 := isLower_charmap _ l2
  have l4 := isLower_replaceApos _ l3
  have l5 := isLower_stripWS _ (isLower_removeExtraSpaces _ l4)
  have l6 := isLower_translateString trimTranslationMapping translation_values_lower _ l5
  have l7 := isLower_foldl_removeAll complexWordsToRemove _ l6
  have l8 := isLower_removeSimpleWords (simpleWordsToRemove ++ aw) _ l7
  have l9 := isLower_stripWS _ (isLower_removeExtraSpaces _ l8)
  have l10 := isLower_removeDuplicateWords _ l9
  have l11 := isLower_rstripSet _ ['-'] l10
  have l12 := isLower_rstripSet _ ['.'] l11
  have l13 := isLower_rstripSet _ [' ', 'w'] l12
  have l14 := isLower_rstripSet _ [' ', 'w', '-'] l13
  have l15 := isLower_rstripSet _ [' ', '&'] l14
  exact isLower_stripWS _ (isLower_removeExtraSpaces _ l15)

theorem isLower_validateTrim (t : LC) (ai : List LC) (h : isLowerStr t = true) :
    isLowerStr (validateTrim t ai) = true := by
  unfold validateTrim
  split
  · decide
  · split
    · decide
    · exact h

theorem forall_mem_map {α β : Type} (l : List α) (g : α → β) (P : β → Prop)
    (h : ∀ a ∈ l, P (g a)) : ∀ b ∈ l.map g, P b := by
  intro b hb
  rcases List.mem_map.mp hb with ⟨a, ha, rfl⟩
  exact h a ha

theorem dictGet_value (m : List (LC × LC)) (k v : LC) (h : dictGet m k = some v) :
    ∃ kv ∈ m, kv.2 = v := by
  induction m with
  | nil => exact absurd h (by simp [dictGet])
  | cons kv rest ih =>
    unfold dictGet at h
    cases hg : dictGet rest k with
    | some v2 =>
      rw [hg] at h
      have hv : v2 = v := by
        injection h
      rcases ih (by rw [hg, hv]) with ⟨kv2, hkv2, hval⟩
      exact ⟨kv2, List.mem_cons_of_mem kv hkv2, hval⟩
    | none =>
      rw [hg] at h
      dsimp only at h
      split at h
      · next hbe =>
          have hv : kv.2 = v := by
            injection h
          exact ⟨kv, List.mem_cons_self kv rest, hv⟩
      · exact absurd h (by simp)

theorem isLower_dictReplace (m : List (LC × LC)) (t : LC)
    (hm : m.all (fun kv => isLowerStr kv.2) = true) (h : isLowerStr t = true) :
    isLowerStr (dictReplace m t) = true := by
  unfold dictReplace
  cases hg : dictGet m t with
  | none => exact h
  | some v =>
    show isLowerStr v = true
    rcases dictGet_value m t v hg with ⟨kv, hkv, hval⟩
    rw [← hval]
    exact List.all_eq_true.mp hm kv hkv

theorem updateUnknown_trim_lower (r : CRow) (vt : List LC)
    (hl : ∀ w ∈ vt, isLowerStr w = true) (h : isLowerStr r.trim = true) :
    isLowerStr (updateUnknownTrim r vt).trim = true := by
  unfold updateUnknownTrim
  split
  · exact h
  · split
    · next w heq =>
        split
        · exact h
        · exact hl w (List.mem_of_find?_eq_some heq)
    · exact h


theorem CRow_trim_mk (a1 a2 a3 a4 a5 a6 a7 a8 : LC) :
    (CRow.mk a1 a2 a3 a4 a5 a6 a7 a8).trim = a3 := rfl

theorem pbm_trims_lower (df : List CRow) (make : LC) (corr : List (LC × LC))
    (vt : VPolicy) (aw ai : List LC) (θ : Nat)
    (hdf : ∀ r ∈ df, isLowerStr r.trim = true)
    (hcorr : corr.all (fun kv => isLowerStr kv.2) = true)
    (hvt : ∀ l, vt = VPolicy.vlist l → ∀ w ∈ l, isLowerStr w = true) :
    ∀ r ∈ processTrimByMake df make corr vt aw ai θ, isLowerStr r.trim = true := by
  have h1 : ∀ r ∈ df.map (fun r =>
      if r.make == make then { r with trim := cleanTrim r.trim aw } else r),
      isLowerStr r.trim = true := by
    apply forall_mem_map
    intro r hr
    by_cases hmk : (r.make == make) = true
    · rw [if_pos hmk, CRow_trim_mk]
      exact isLower_cleanTrim r.trim aw
    · rw [if_neg hmk]
      exact hdf r hr
  have h2 : ∀ r ∈ pbmCleaned df make corr aw ai, isLowerStr r.trim = true := by
    unfold pbmCleaned
    dsimp only
    by_cases hc : corr.isEmpty
    · rw [if_pos hc]
      apply forall_mem_map
      intro r hr
      by_cases hmk : (r.make == make) = true
      · rw [if_pos hmk]
        exact isLower_validateTrim r.trim ai (h1 r hr)
      · rw [if_neg hmk]
        exact h1 r hr
    · rw [if_neg hc]
      have h1b : ∀ r ∈ (df.map (fun r =>
          if r.make == make then { r with trim := cleanTrim r.trim aw } else r)).map
            (fun r => if r.make == make then { r with trim := dictReplace corr r.trim } else r),
          isLowerStr r.trim = true := by
        apply forall_mem_map
        intro r hr
        by_cases hmk : (r.make == make) = true
        · rw [if_pos hmk]
          exact isLower_dictReplace corr r.trim hcorr (h1 r hr)
        · rw [if_neg hmk]
          exact h1 r hr
      apply forall_mem_map
      intro r hr
      by_cases hmk : (r.make == make) = true
      · rw [if_pos hmk]
        exact isLower_validateTrim r.trim ai (h1b r hr)
      · rw [if_neg hmk]
        exact h1b r hr
  cases vt with
  | vauto =>
    have hvtl : ∀ w ∈ getSortedTrimsAboveThreshold (pbmCleaned df make corr aw ai) make θ,
        isLowerStr w = true := by
      intro w hw
      have hmem := ((mem_getSortedTrims _ make θ w).mp hw).1
      rcases List.mem_map.mp hmem with ⟨r2, hr2, htr⟩
      rw [← htr]
      exact h2 r2 (List.mem_filter.mp hr2).1
    show ∀ r ∈ (pbmCleaned df make corr aw ai).map (fun r =>
      if r.make == make then
        updateUnknownTrim r
          (getSortedTrimsAboveThreshold (pbmCleaned df make corr aw ai) make θ)
      else r), isLowerStr r.trim = true
    apply forall_mem_map
    intro r hr
    by_cases hmk : (r.make == make) = true
    · rw [if_pos hmk]
      exact updateUnknown_trim_lower r _ hvtl (h2 r hr)
    · rw [if_neg hmk]
      exact h2 r hr
  | vnone => exact h2
  | vlist l =>
    intro r hr
    have hr2 : r ∈ (if l.isEmpty then pbmCleaned df make corr aw ai
        else (pbmCleaned df make corr aw ai).map (fun r =>
          if r.make == make then updateUnknownTrim r l else r)) := hr
    by_cases hl : l.isEmpty = true
    · rw [if_pos hl] at hr2
      exact h2 r hr2
    · rw [if_neg hl] at hr2
      rcases List.mem_map.mp hr2 with ⟨r0, hr0, rfl⟩
      by_cases hmk : (r0.make == make) = true
      · rw [if_pos hmk]
        exact updateUnknown_trim_lower r0 l (hvt l rfl) (h2 r0 hr0)
      · rw [if_neg hmk]
        exact h2 r0 hr0

theorem processAllMakes_trims_lower (df : List CRow)
    (hdf : ∀ r ∈ df, isLowerStr r.trim = true) :
    ∀ r ∈ processAllMakes df, isLowerStr r.trim = true := by
  have g01 := pbm_trims_lower df ("bmw".toList) bmwTrimCorrectionMapping VPolicy.vauto bmwWordsToRemove invalidBmwTrims 4 hdf (by decide) (fun l hl => nomatch hl)
  have g02 := pbm_trims_lower _ ("toyota".toList) toyotaTrimCorrectionMapping VPolicy.vnone [] invalidToyotaTrims 4 g01 (by decide) (fun l hl => nomatch hl)
  have g03 := pbm_trims_lower _ ("audi".toList) audiTrimCorrectionMapping VPolicy.vnone audiWordsToRemove invalidAudiTrims 4 g02 (by decide) (fun l hl => nomatch hl)
  have g04 := pbm_trims_lower _ ("honda".toList) [] VPolicy.vnone hondaWordsToRemove invalidHondaTrims 4 g03 (by decide) (fun l hl => nomatch hl)
  have g05 := pbm_trims_lower _ ("ford".toList) fordTrimCorrectionMapping (VPolicy.vlist validFordTrims) [] [] 4 g04 (by decide) (fun l hl => by cases hl; decide)
  have g06 := pbm_trims_lower _ ("porsche".toList) [] VPolicy.vnone porscheWordsToRemove [] 4 g05 (by decide) (fun l hl => nomatch hl)
  have g07 := pbm_trims_lower _ ("chevrolet".toList) chevroletTrimCorrectionMapping VPolicy.vnone porscheWordsToRemove [] 4 g06 (by decide) (fun l hl => nomatch hl)
  have g08 := pbm_trims_lower _ ("chrysler".toList) chryslerTrimCorrectionMapping VPolicy.vauto [] [] 4 g07 (by decide) (fun l hl => nomatch hl)
  have g09 := pbm_trims_lower _ ("dodge".toList) dodgeTrimCorrectionMapping VPolicy.vauto dodgeWordsToRemove [] 4 g08 (by decide) (fun l hl => nomatch hl)
  have g10 := pbm_trims_lower _ ("hyundai".toList) hyundaiTrimCorrectionMapping VPolicy.vauto hyundaiWordsToRemove [] 4 g09 (by decide) (fun l hl => nomatch hl)
  have g11 := pbm_trims_lower _ ("land rover".toList) landroverTrimCorrectionMapping VPolicy.vauto [] [] 4 g10 (by decide) (fun l hl => nomatch hl)
  have g12 := pbm_trims_lower _ ("tesla".toList) teslaTrimCorrectionMapping VPolicy.vauto teslaWordsToRemove invalidTeslaTrims 4 g11 (by decide) (fun l hl => nomatch hl)
  have g13 := pbm_trims_lower _ ("nissan".toList) [] VPolicy.vauto nissanWordsToRemove [] 4 g12 (by decide) (fun l hl => nomatch hl)
  have g14 := pbm_trims_lower _ ("kia".toList) [] VPolicy.vauto kiaWordsToRemove [] 4 g13 (by decide) (fun l hl => nomatch hl)
  have g15 := pbm_trims_lower _ ("ram".toList) ramTrimCorrectionMapping VPolicy.vauto [] [] 4 g14 (by decide) (fun l hl => nomatch hl)
  have g16 := pbm_trims_lower _ ("subaru".toList) subaruTrimCorrectionMapping VPolicy.vauto subaruWordsToRemove [] 4 g15 (by decide) (fun l hl => nomatch hl)
  have g17 := pbm_trims_lower _ ("mini".toList) miniTrimCorrectionMapping VPolicy.vauto miniWordsToRemove [] 4 g16 (by decide) (fun l hl => nomatch hl)
  have g18 := pbm_trims_lower _ ("cadillac".toList) cadillacTrimCorrectionMapping VPolicy.vauto cadillacWordsToRemove [] 4 g17 (by decide) (fun l hl => nomatch hl)
  have g19 := pbm_trims_lower _ ("infiniti".toList) infinitiTrimCorrectionMapping VPolicy.vauto infinitiWordsToRemove invalidInfinitiTrims 4 g18 (by decide) (fun l hl => nomatch hl)
  have g20 := pbm_trims_lower _ ("mercedes-benz".toList) mercedesTrimCorrectionMapping VPolicy.vauto mercedesWordsToRemove [] 4 g19 (by decide) (fun l hl => nomatch hl)
  have g21 := pbm_trims_lower _ ("gmc".toList) gmcTrimCorrectionMapping VPolicy.vauto [] [] 4 g20 (by decide) (fun l hl => nomatch hl)
  have g22 := pbm_trims_lower _ ("volkswagen".toList) [] VPolicy.vauto volkswagenWordsToRemove [] 4 g21 (by decide) (fun l hl => nomatch hl)
  have g23 := pbm_trims_lower _ ("mazda".toList) mazdaTrimCorrectionMapping VPolicy.vauto mazdaWordsToRemove [] 4 g22 (by decide) (fun l hl => nomatch hl)
  have g24 := pbm_trims_lower _ ("mitsubishi".toList) [] VPolicy.vauto mitsubishiWordsToRemove [] 4 g23 (by decide) (fun l hl => nomatch hl)
  have g25 := pbm_trims_lower _ ("lexus".toList) [] VPolicy.vauto lexusWordsToRemove [] 4 g24 (by decide) (fun l hl => nomatch hl)
  have g26 := pbm_trims_lower _ ("jeep".toList) [] VPolicy.vauto [] [] 4 g25 (by decide) (fun l hl => nomatch hl)
  have g27 := pbm_trims_lower _ ("lincoln".toList) [] VPolicy.vauto [] [] 4 g26 (by decide) (fun l hl => nomatch hl)
  have g28 := pbm_trims_lower _ ("volvo".toList) [] VPolicy.vauto [] [] 4 g27 (by decide) (fun l hl => nomatch hl)
  exact g28

theorem map_col_comm {α β : Type} (l : List α) (f : α → α) (g : α → β)
    (h : ∀ a, g (f a) = g a) : (l.map f).map g = l.map g := by
  rw [List.map_map]
  apply List.map_congr_left
  intro a _
  exact h a

theorem setCol_trim (r : Row) (c : Col) (v : LC) : (setCol r c v).trim = r.trim := by
  cases c <;> rfl

theorem setCol_model (r : Row) (c : Col) (v : LC) : (setCol r c v).model = r.model := by
  cases c <;> rfl

theorem extract_foldl_col {β : Type} (g : Row → β)
    (hg : ∀ (r : Row) (c : Col) (v : LC), g (setCol r c v) = g r)
    (rules : List (Col × LC × LC)) :
    ∀ df : List Row,
      (rules.foldl (fun acc rule =>
        acc.map (fun r => if containsSub (toLowerStr r.trim) (toLowerStr rule.2.1)
          then setCol r rule.1 rule.2.2 else r)) df).map g
      = df.map g := by
  induction rules with
  | nil =>
    intro df
    rfl
  | cons rule rest ih =>
    intro df
    rw [List.foldl_cons, ih]
    apply map_col_comm
    intro r
    by_cases hc : containsSub (toLowerStr r.trim) (toLowerStr rule.2.1) = true
    · rw [if_pos hc]
      exact hg r rule.1 rule.2.2
    · rw [if_neg hc]

theorem extract_trims (df : List Row) :
    (extractInfoFromTrim df).map Row.trim = df.map Row.trim := by
  unfold extractInfoFromTrim
  exact extract_foldl_col Row.trim setCol_trim updateList df

theorem extract_models (df : List Row) :
    (extractInfoFromTrim df).map Row.model = df.map Row.model := by
  unfold extractInfoFromTrim
  exact extract_foldl_col Row.model setCol_model updateList df

theorem lower_of_trims_eq_row {t u : List Row}
    (he : u.map Row.trim = t.map Row.trim)
    (h : ∀ r ∈ t, isLowerStr r.trim = true) : ∀ r ∈ u, isLowerStr r.trim = true := by
  intro r hr
  have hmm : r.trim ∈ u.map Row.trim := List.mem_map.mpr ⟨r, hr, rfl⟩
  rw [he] at hmm
  rcases List.mem_map.mp hmm with ⟨r0, hr0, htr⟩
  rw [← htr]
  exact h r0 hr0

theorem updateUnknown_model (r : CRow) (vt : List LC) :
    (updateUnknownTrim r vt).model = r.model := by
  unfold updateUnknownTrim
  split
  · rfl
  · split
    · split
      · rfl
      · rfl
    · rfl

theorem pbm_models (df : List CRow) (make : LC) (corr : List (LC × LC))
    (vt : VPolicy) (aw ai : List LC) (θ : Nat) :
    (processTrimByMake df make corr vt aw ai θ).map CRow.model = df.map CRow.model := by
  have e1 : ∀ r : CRow,
      ((if r.make == make then { r with trim := cleanTrim r.trim aw } else r) : CRow).model
        = r.model := by
    intro r
    by_cases hmk : (r.make == make) = true
    · rw [if_pos hmk]
    · rw [if_neg hmk]
  have e2 : ∀ r : CRow,
      ((if r.make == make then { r with trim := dictReplace corr r.trim } else r) : CRow).model
        = r.model := by
    intro r
    by_cases hmk : (r.make == make) = true
    · rw [if_pos hmk]
    · rw [if_neg hmk]
  have e3 : ∀ r : CRow,
      ((if r.make == make then { r with trim := validateTrim r.trim ai } else r) : CRow).model
        = r.model := by
    intro r
    by_cases hmk : (r.make == make) = true
    · rw [if_pos hmk]
    · rw [if_neg hmk]
  have hclean : (pbmCleaned df make corr aw ai).map CRow.model = df.map CRow.model := by
    unfold pbmCleaned
    dsimp only
    by_cases hc : corr.isEmpty
    · rw [if_pos hc, map_col_comm _ _ _ e3, map_col_comm _ _ _ e1]
    · rw [if_neg hc, map_col_comm _ _ _ e3, map_col_comm _ _ _ e2, map_col_comm _ _ _ e1]
  cases vt with
  | vauto =>
    show ((pbmCleaned df make corr aw ai).map (fun r =>
      if r.make == make then
        updateUnknownTrim r
          (getSortedTrimsAboveThreshold (pbmCleaned df make corr aw ai) make θ)
      else r)).map CRow.model = df.map CRow.model
    rw [map_col_comm _ _ _ (fun r => ?_), hclean]
    by_cases hmk : (r.make == make) = true
    · rw [if_pos hmk]
      exact updateUnknown_model r _
    · rw [if_neg hmk]
  | vnone => exact hclean
  | vlist l =>
    show ((if l.isEmpty then pbmCleaned df make corr aw ai
        else (pbmCleaned df make corr aw ai).map (fun r =>
          if r.make == make then updateUnknownTrim r l else r))).map CRow.model
      = df.map CRow.model
    by_cases hl : l.isEmpty = true
    · rw [if_pos hl]
      exact hclean
    · rw [if_neg hl]
      rw [map_col_comm _ _ _ (fun r => ?_), hclean]
      by_cases hmk : (r.make == make) = true
      · rw [if_pos hmk]
        exact updateUnknown_model r l
      · rw [if_neg hmk]

theorem processAllMakes_models (df : List CRow) :
    (processAllMakes df).map CRow.model = df.map CRow.model := by
  unfold processAllMakes
  dsimp only
  simp only [pbm_models]

theorem lowerTrims_models (df : List Row) :
    (lowerTrims df).map Row.model = df.map Row.model := by
  unfold lowerTrims
  exact map_col_comm df _ Row.model (fun r => rfl)

theorem snapshot_models (df : List Row) :
    (snapshotBackup df).map CRow.model = df.map Row.model := by
  unfold snapshotBackup
  rw [List.map_map]
  rfl

theorem drop_models (df : List CRow) :
    (dropBackupStage df).map Row.model = df.map CRow.model := by
  unfold dropBackupStage
  rw [List.map_map]
  rfl

theorem suppress_models (df : List Row) (m : Nat) :
    (suppressRare df m).map Row.model = df.map Row.model := by
  unfold suppressRare
  apply map_col_comm
  intro r
  by_cases h : m ≤ countOcc (df.map Row.trim) r.trim
  · rw [if_pos h]
  · rw [if_neg h]

theorem suppress_trims_lower (df : List Row) (m : Nat)
    (h : ∀ r ∈ df, isLowerStr r.trim = true) :
    ∀ r ∈ suppressRare df m, isLowerStr r.trim = true := by
  unfold suppressRare
  apply forall_mem_map
  intro r hr
  by_cases hp : m ≤ countOcc (df.map Row.trim) r.trim
  · rw [if_pos hp]
    exact h r hr
  · rw [if_neg hp]
    show isLowerStr unknownLC = true
    decide

/-- C2 counterexample: the bmw correction map rewrites conv to convertible,
    which survives validation and suppression, so the final table contains the
    trim m4-convertible, which contains the active global stopword convertible
    as a substring — the claimed invariant fails after correction maps. -/
theorem claim_C2_counterexample :
    ("m4-convertible".toList) ∈ (processTrim tblC2 1 true).map Row.trim
    ∧ ("convertible".toList) ∈ simpleWordsToRemove
    ∧ containsSub ("m4-convertible".toList) ("convertible".toList) = true := by
  decide


theorem fill_id (df : List Row) : fillUnknownStage df = df := rfl

/-- C2 amended: given the upstream guarantee that model values are lowercase,
    every trim value in the table returned by process_trim is lowercase; the
    other conjuncts of the claimed invariant do not survive the correction
    maps and allowlist backfill. -/
theorem claim_C2_lowercase_invariant (df : List Row) (minOcc : Nat) (combine : Bool)
    (hm : ∀ r ∈ df, isLowerStr r.model = true) :
    ∀ r ∈ processTrim df minOcc combine, isLowerStr r.trim = true := by
  have t1 : ∀ r ∈ lowerTrims df, isLowerStr r.trim = true := by
    unfold lowerTrims
    apply forall_mem_map
    intro r hr
    exact isLower_toLowerStr r.trim
  have t2 : ∀ r ∈ extractInfoFromTrim (lowerTrims df), isLowerStr r.trim = true :=
    lower_of_trims_eq_row (extract_trims (lowerTrims df)) t1
  have t3 : ∀ r ∈ snapshotBackup (extractInfoFromTrim (lowerTrims df)),
      isLowerStr r.trim = true := by
    unfold snapshotBackup
    apply forall_mem_map
    intro r hr
    exact t2 r hr
  have t4 := processAllMakes_trims_lower _ t3
  have t5 : ∀ r ∈ dropBackupStage (processAllMakes (snapshotBackup
      (extractInfoFromTrim (lowerTrims df)))), isLowerStr r.trim = true := by
    unfold dropBackupStage
    apply forall_mem_map
    intro r hr
    exact t4 r hr
  have t6 : ∀ r ∈ suppressRare (fillUnknownStage (dropBackupStage (processAllMakes
      (snapshotBackup (extractInfoFromTrim (lowerTrims df)))))) minOcc,
      isLowerStr r.trim = true := by
    rw [fill_id]
    exact suppress_trims_lower _ minOcc t5
  have hmodels : (suppressRare (fillUnknownStage (dropBackupStage (processAllMakes
      (snapshotBackup (extractInfoFromTrim (lowerTrims df)))))) minOcc).map Row.model
      = df.map Row.model := by
    rw [suppress_models, fill_id, drop_models, processAllMakes_models,
      snapshot_models, extract_models, lowerTrims_models]
  cases combine with
  | false => exact t6
  | true =>
    intro r hr
    have hr2 : r ∈ combineStage (suppressRare (fillUnknownStage (dropBackupStage
      (processAllMakes (snapshotBackup (extractInfoFromTrim (lowerTrims df)))))) minOcc) := hr
    unfold combineStage at hr2
    rcases List.mem_map.mp hr2 with ⟨r1, hr1, rfl⟩
    rcases List.mem_map.mp hr1 with ⟨r0, hr0, rfl⟩
    have hmod : isLowerStr r0.model = true := by
      have hmm : r0.model ∈ (suppressRare (fillUnknownStage (dropBackupStage
          (processAllMakes (snapshotBackup (extractInfoFromTrim (lowerTrims df))))))
            minOcc).map Row.model :=
        List.mem_map.mpr ⟨r0, hr0, rfl⟩
      rw [hmodels] at hmm
      rcases List.mem_map.mp hmm with ⟨rd, hrd, hme⟩
      rw [← hme]
      exact hm rd hrd
    have htr : isLowerStr r0.trim = true := t6 r0 hr0
    have hdashtrim : isLowerStr ('-' :: r0.trim) = true := by
      show ((toLowerChar '-' == '-') && r0.trim.all (fun c => toLowerChar c == c)) = true
      rw [Bool.and_eq_true]
      exact ⟨by decide, htr⟩
    have hcomb : isLowerStr (r0.model ++ '-' :: r0.trim) = true := by
      rw [isLower_append, Bool.and_eq_true]
      exact ⟨hmod, hdashtrim⟩
    have hdashunk : isLowerStr ('-' :: unknownLC) = true := by decide
    have hcombu : isLowerStr (r0.model ++ '-' :: unknownLC) = true := by
      rw [isLower_append, Bool.and_eq_true]
      exact ⟨hmod, hdashunk⟩
    dsimp only
    by_cases hg : ((r0.model ++ '-' :: r0.trim) == unknownLC) = true
    · rw [if_pos hg]
      exact hcombu
    · rw [if_neg hg]
      exact hcomb

/-- C2 witness: the lowercase invariant at a concrete table with a mixed-case
    trim -/
theorem claim_C2_witness :
    (∀ r ∈ tblC2w, isLowerStr r.model = true)
    ∧ ∀ r ∈ processTrim tblC2w 1 true, isLowerStr r.trim = true :=
  ⟨by decide, claim_C2_lowercase_invariant tblC2w 1 true (by decide)⟩
